import Mathlib

/-!
Shallow embedding of the multimodal VLM gateway (TypeScript sources under
`src/gateway/`): canonical data model, per-adapter capability registries,
request/response transformation, SSE stream processing, and the gateway's
validation / retry / routing logic.  Machine-checked statements of the
spec's claims follow the definitions.
-/

instance {ε α : Type} [DecidableEq ε] [DecidableEq α] : DecidableEq (Except ε α) := fun a b =>
  match a, b with
  | .ok x, .ok y =>
    if h : x = y then .isTrue (by rw [h])
    else .isFalse (by intro hc; exact h (Except.ok.inj hc))
  | .error x, .error y =>
    if h : x = y then .isTrue (by rw [h])
    else .isFalse (by intro hc; exact h (Except.error.inj hc))
  | .ok _, .error _ => .isFalse (fun h => Except.noConfusion h)
  | .error _, .ok _ => .isFalse (fun h => Except.noConfusion h)

namespace VLMGateway

/-! ## Canonical data model (src/gateway/types.ts) -/

/-- `ContentPart` tagged union from types.ts: text, image, pdf, audio, video.
Media types are carried as plain strings (TS string-literal unions). -/
inductive ContentPart where
  | text (text : String)
  | image (data : String) (mediaType : String)
  | pdf (data : String) (pageRange : Option (Nat × Nat)) (filename : Option String)
  | audio (data : String) (mediaType : String)
  | video (data : String) (mediaType : String)
deriving DecidableEq, Repr

/-- The five content-part type tags, used by `findCapableProvider`. -/
inductive PartType where
  | text | image | pdf | audio | video
deriving DecidableEq, Repr

def ContentPart.ptype : ContentPart → PartType
  | .text _ => .text
  | .image _ _ => .image
  | .pdf _ _ _ => .pdf
  | .audio _ _ => .audio
  | .video _ _ => .video

inductive MessageRole where
  | user | assistant | system
deriving DecidableEq, Repr

/-- `Message.content` is `string | ContentPart[]` in types.ts. -/
inductive MessageContent where
  | str (s : String)
  | parts (l : List ContentPart)
deriving DecidableEq, Repr

structure Message where
  role : MessageRole
  content : MessageContent
deriving DecidableEq, Repr

structure GatewayRequest where
  provider : String
  model : String
  messages : List Message
  system : Option String
  maxTokens : Option Nat
  temperature : Option Int
  stream : Option Bool
deriving DecidableEq, Repr

structure Usage where
  inputTokens : Nat
  outputTokens : Nat
deriving DecidableEq, Repr

structure Timing where
  startTime : Nat
  endTime : Nat
  durationMs : Int
deriving DecidableEq, Repr

/-- Canonical `GatewayResponse`; `stopReason` holds one of the canonical
string literals `end_turn | max_tokens | stop_sequence | tool_use | error`. -/
structure GatewayResponse where
  id : String
  provider : String
  model : String
  content : List ContentPart
  stopReason : String
  usage : Usage
  timing : Timing
deriving DecidableEq, Repr

/-- `StreamChunk` record from types.ts: a type tag plus optional payload. -/
structure StreamChunk where
  type : String
  text : Option String
  error : Option String
  usage : Option Usage
deriving DecidableEq, Repr

def chunkOf (t : String) : StreamChunk := ⟨t, none, none, none⟩

def chunkTextDelta (s : String) : StreamChunk := ⟨"text_delta", some s, none, none⟩

def chunkMessageStop (u : Usage) : StreamChunk := ⟨"message_stop", none, none, some u⟩

structure ContentOrdering where
  imagesFirst : Option Bool
  separateSystem : Option Bool
deriving DecidableEq, Repr

structure CapLimits where
  maxImageSize : Option Nat
  maxImagesPerMessage : Option Nat
  maxPdfPages : Option Nat
  supportedImageFormats : Option (List String)
deriving DecidableEq, Repr

structure ModelCapabilities where
  vision : Bool
  pdf : Bool
  audio : Bool
  video : Bool
  tools : Bool
  streaming : Bool
  maxContextTokens : Nat
  maxOutputTokens : Nat
  contentOrdering : Option ContentOrdering
  limits : Option CapLimits
deriving DecidableEq, Repr

/-- `GatewayError` (and its subclasses): `name` distinguishes the subclass
(`GatewayError` / `CapabilityError` / `TransformError`), mirroring JS
`instanceof` information; `requiredCapability` and `model` are the extra
fields of `CapabilityError`. -/
structure GatewayErrorS where
  name : String
  message : String
  code : String
  provider : Option String
  statusCode : Option Nat
  requiredCapability : Option String
  model : Option String
deriving DecidableEq, Repr

def mkGatewayError (message code : String) (provider : Option String)
    (statusCode : Option Nat) : GatewayErrorS :=
  ⟨"GatewayError", message, code, provider, statusCode, none, none⟩

def mkCapabilityError (message requiredCapability model : String)
    (provider : Option String) : GatewayErrorS :=
  ⟨"CapabilityError", message, "CAPABILITY_ERROR", provider, none,
    some requiredCapability, some model⟩

def mkTransformError (message : String) (provider : Option String) : GatewayErrorS :=
  ⟨"TransformError", message, "TRANSFORM_ERROR", provider, none, none, none⟩

/-- Errors thrown during a send attempt: either a `GatewayError` (with its
subclass recorded in `name`) or some other JS error, so the gateway's
`instanceof GatewayError` test is expressible. -/
inductive ThrownError where
  | gatewayErr (e : GatewayErrorS)
  | otherErr (message : String)
deriving DecidableEq, Repr

/-! ## Anthropic adapter: capability registry (src/gateway/adapters/anthropic.ts) -/

def CLAUDE_3_CAPABILITIES : ModelCapabilities :=
  { vision := true
    pdf := true
    audio := false
    video := false
    tools := true
    streaming := true
    maxContextTokens := 200000
    maxOutputTokens := 8192
    contentOrdering := some ⟨some false, some true⟩
    limits := some ⟨some (20 * 1024 * 1024), some 20, some 100,
      some ["image/jpeg", "image/png", "image/gif", "image/webp"]⟩ }

def CLAUDE_OPUS_CAPABILITIES : ModelCapabilities :=
  { CLAUDE_3_CAPABILITIES with maxOutputTokens := 16384 }

/-- The Anthropic `MODEL_CAPABILITIES` table, in source (insertion) order. -/
def anthropicModelTable : List (String × ModelCapabilities) :=
  [ ("claude-opus-4-20250514", CLAUDE_OPUS_CAPABILITIES)
  , ("claude-sonnet-4-20250514", CLAUDE_3_CAPABILITIES)
  , ("claude-3-7-sonnet-20250219", CLAUDE_3_CAPABILITIES)
  , ("claude-3-7-sonnet-latest", CLAUDE_3_CAPABILITIES)
  , ("claude-3-5-sonnet-20241022", CLAUDE_3_CAPABILITIES)
  , ("claude-3-5-sonnet-latest", CLAUDE_3_CAPABILITIES)
  , ("claude-3-5-sonnet-20240620", CLAUDE_3_CAPABILITIES)
  , ("claude-3-5-haiku-20241022", CLAUDE_3_CAPABILITIES)
  , ("claude-3-5-haiku-latest", CLAUDE_3_CAPABILITIES)
  , ("claude-3-opus-20240229", { CLAUDE_3_CAPABILITIES with pdf := false })
  , ("claude-3-opus-latest", { CLAUDE_3_CAPABILITIES with pdf := false })
  , ("claude-3-sonnet-20240229", { CLAUDE_3_CAPABILITIES with pdf := false })
  , ("claude-3-haiku-20240307",
      { CLAUDE_3_CAPABILITIES with pdf := false, maxOutputTokens := 4096 })
  ]

/-- JS `String.prototype.includes` (substring containment). -/
def strIncludes (s sub : String) : Bool := decide (sub.toList <:+: s.toList)

/-- JS `String.prototype.startsWith`. -/
def strStartsWith (s pre : String) : Bool := pre.toList.isPrefixOf s.toList

/-- `AnthropicAdapter.getModelCapabilities`: exact table hit, then substring
patterns, then the Claude 3 default.  Total; never fails. -/
def anthropicGetModelCapabilities (model : String) : ModelCapabilities :=
  match anthropicModelTable.lookup model with
  | some caps => caps
  | none =>
    if strIncludes model "opus" then CLAUDE_OPUS_CAPABILITIES
    else if strIncludes model "claude-3" then CLAUDE_3_CAPABILITIES
    else CLAUDE_3_CAPABILITIES

/-! ## OpenAI adapter: capability registry (src/gateway/adapters/openai.ts) -/

def GPT4_VISION_CAPABILITIES : ModelCapabilities :=
  { vision := true
    pdf := false
    audio := false
    video := false
    tools := true
    streaming := true
    maxContextTokens := 128000
    maxOutputTokens := 4096
    contentOrdering := some ⟨some false, some false⟩
    limits := some ⟨some (20 * 1024 * 1024), some 10, none,
      some ["image/jpeg", "image/png", "image/gif", "image/webp"]⟩ }

def GPT4O_CAPABILITIES : ModelCapabilities :=
  { GPT4_VISION_CAPABILITIES with maxOutputTokens := 16384 }

def GPT4O_MINI_CAPABILITIES : ModelCapabilities :=
  { GPT4_VISION_CAPABILITIES with maxContextTokens := 128000, maxOutputTokens := 16384 }

/-- The OpenAI `MODEL_CAPABILITIES` table, in source (insertion) order. -/
def openaiModelTable : List (String × ModelCapabilities) :=
  [ ("gpt-4o", GPT4O_CAPABILITIES)
  , ("gpt-4o-2024-11-20", GPT4O_CAPABILITIES)
  , ("gpt-4o-2024-08-06", GPT4O_CAPABILITIES)
  , ("gpt-4o-2024-05-13", GPT4O_CAPABILITIES)
  , ("gpt-4o-mini", GPT4O_MINI_CAPABILITIES)
  , ("gpt-4o-mini-2024-07-18", GPT4O_MINI_CAPABILITIES)
  , ("gpt-4-turbo", GPT4_VISION_CAPABILITIES)
  , ("gpt-4-turbo-2024-04-09", GPT4_VISION_CAPABILITIES)
  , ("gpt-4-vision-preview", GPT4_VISION_CAPABILITIES)
  , ("o1", { GPT4O_CAPABILITIES with maxOutputTokens := 100000, maxContextTokens := 200000 })
  , ("o1-preview", { GPT4O_CAPABILITIES with maxOutputTokens := 32768 })
  , ("o1-mini", { GPT4O_MINI_CAPABILITIES with vision := false })
  ]

/-- `OpenAIAdapter.getModelCapabilities`: exact table hit, then prefix
patterns, then the GPT-4 Vision default.  Total; never fails. -/
def openaiGetModelCapabilities (model : String) : ModelCapabilities :=
  match openaiModelTable.lookup model with
  | some caps => caps
  | none =>
    if strStartsWith model "gpt-4o-mini" then GPT4O_MINI_CAPABILITIES
    else if strStartsWith model "gpt-4o" || strStartsWith model "gpt-4-turbo" then GPT4O_CAPABILITIES
    else if strStartsWith model "o1" then GPT4O_CAPABILITIES
    else GPT4_VISION_CAPABILITIES

/-! ## Gateway: capability resolution and request validation
(src/gateway/gateway.ts) -/

/-- `VLMGateway.getModelCapabilities`: the adapters map always holds exactly
the `anthropic` and `openai` adapters; any other id raises
`UNKNOWN_PROVIDER`. -/
def gatewayModelCaps (provider model : String) : Except GatewayErrorS ModelCapabilities :=
  if provider == "anthropic" then .ok (anthropicGetModelCapabilities model)
  else if provider == "openai" then .ok (openaiGetModelCapabilities model)
  else .error (mkGatewayError ("Unknown provider: " ++ provider) "UNKNOWN_PROVIDER" none none)

/-- One arm of the `switch (part.type)` in `validateRequest`: the error
message pushed for a part whose capability flag is off, if any. -/
def partViolation (caps : ModelCapabilities) (model : String) : ContentPart → Option String
  | .text _ => none
  | .image _ _ =>
    if caps.vision then none
    else some ("Model " ++ model ++ " does not support image input")
  | .pdf _ _ _ =>
    if caps.pdf then none
    else some ("Model " ++ model ++ " does not support native PDF input")
  | .audio _ _ =>
    if caps.audio then none
    else some ("Model " ++ model ++ " does not support audio input")
  | .video _ _ =>
    if caps.video then none
    else some ("Model " ++ model ++ " does not support video input")

/-- Violations contributed by one message: string content is skipped, array
content is walked part by part. -/
def messageViolations (caps : ModelCapabilities) (model : String) (m : Message) : List String :=
  match m.content with
  | .str _ => []
  | .parts l => l.filterMap (partViolation caps model)

/-- All violation messages of a request, in traversal order. -/
def validateErrors (caps : ModelCapabilities) (model : String)
    (msgs : List Message) : List String :=
  (msgs.map (messageViolations caps model)).flatten

/-- `VLMGateway.validateRequest`: resolves the model's capabilities, then
aggregates every capability violation; `valid ↔ errors = []`. -/
def validateRequest (req : GatewayRequest) : Except GatewayErrorS (Bool × List String) :=
  match gatewayModelCaps req.provider req.model with
  | .error e => .error e
  | .ok caps =>
    let errors := validateErrors caps req.model req.messages
    .ok (errors.isEmpty, errors)

/-! ## Gateway: provider/model routing (`findCapableProvider`) -/

/-- The gateway's view of one registered adapter: its id, whether
`isConfigured()` holds, and its capability registry in iteration order. -/
structure ProviderEntry where
  id : String
  configured : Bool
  models : List (String × ModelCapabilities)
deriving Repr

/-- `listConfiguredProviders`: registration order, filtered by
`isConfigured`. -/
def listConfiguredProviders (ps : List ProviderEntry) : List String :=
  (ps.filter (·.configured)).map (·.id)

def modelsFor (ps : List ProviderEntry) (pid : String) : List (String × ModelCapabilities) :=
  match ps.find? (fun e => e.id == pid) with
  | some e => e.models
  | none => []

/-- The inner `for (const type of contentTypes)` loop of `findCapableModel`:
a `capable` flag cleared when a required type's capability flag is off. -/
def modelCapableFor (caps : ModelCapabilities) (types : List PartType) : Bool :=
  types.foldl (fun capable t =>
    match t with
    | .image => if caps.vision then capable else false
    | .pdf => if caps.pdf then capable else false
    | .audio => if caps.audio then capable else false
    | .video => if caps.video then capable else false
    | .text => capable) true

/-- `findCapableModel`: first model in registry iteration order whose
capabilities pass the flag loop. -/
def findCapableModelIn (models : List (String × ModelCapabilities))
    (types : List PartType) : Option String :=
  match models with
  | [] => none
  | (mid, caps) :: rest =>
    if modelCapableFor caps types then some mid else findCapableModelIn rest types

/-- The `for (const providerId of providers)` loop of `findCapableProvider`,
which skips the preferred provider. -/
def findOther (ps : List ProviderEntry) (types : List PartType)
    (preferred : Option String) : List String → Option (String × String)
  | [] => none
  | pid :: rest =>
    if preferred = some pid then findOther ps types preferred rest
    else
      match findCapableModelIn (modelsFor ps pid) types with
      | some m => some (pid, m)
      | none => findOther ps types preferred rest

/-- `VLMGateway.findCapableProvider`: preferred provider first (when
configured), then every other configured provider in registration order;
`none` when no combination fits. -/
def findCapableProvider (ps : List ProviderEntry) (types : List PartType)
    (preferred : Option String) : Option (String × String) :=
  match preferred with
  | some p =>
    if (listConfiguredProviders ps).contains p then
      match findCapableModelIn (modelsFor ps p) types with
      | some m => some (p, m)
      | none => findOther ps types (some p) (listConfiguredProviders ps)
    else findOther ps types (some p) (listConfiguredProviders ps)
  | none => findOther ps types none (listConfiguredProviders ps)

/-- The gateway's actual adapter registration: anthropic first, then openai,
each carrying its static model registry. -/
def gatewayProviders (anthConfigured openaiConfigured : Bool) : List ProviderEntry :=
  [⟨"anthropic", anthConfigured, anthropicModelTable⟩,
   ⟨"openai", openaiConfigured, openaiModelTable⟩]

/-! ## Gateway: `send` with retry, and the `sendStream` entry checks -/

structure RetryConfig where
  maxRetries : Nat
  backoffMs : Nat
  backoffMultiplier : Nat
deriving Repr

/-- Default retry configuration from the `VLMGateway` constructor. -/
def defaultRetryConfig : RetryConfig := ⟨3, 1000, 2⟩

/-- `error instanceof GatewayError && error.statusCode && error.statusCode < 500`
(JS truthiness: a `statusCode` of 0 is falsy). -/
def isClientError : ThrownError → Bool
  | .gatewayErr e =>
    match e.statusCode with
    | some s => s != 0 && s < 500
    | none => false
  | .otherErr _ => false

/-- The retry loop of `VLMGateway.send`.  `attempts n` is the outcome of the
adapter's `send` on attempt `n`; `remaining = maxRetries - attempt`.
Returns the final outcome, the number of adapter invocations, and the
backoff delays actually waited, in order. -/
def sendLoop (attempts : Nat → Except ThrownError GatewayResponse)
    (backoffMs mult : Nat) :
    Nat → Nat → Except ThrownError GatewayResponse × Nat × List Nat
  | attempt, remaining =>
    match attempts attempt with
    | .ok r => (.ok r, 1, [])
    | .error e =>
      if isClientError e then (.error e, 1, [])
      else
        match remaining with
        | 0 => (.error e, 1, [])
        | rem + 1 =>
          let rest := sendLoop attempts backoffMs mult (attempt + 1) rem
          (rest.1, rest.2.1 + 1, backoffMs * mult ^ attempt :: rest.2.2)

/-- Environment for a `send`/`sendStream` call: which adapters are
configured, and how the resolved adapter's `send` behaves per attempt. -/
structure SendEnv where
  anthropicConfigured : Bool
  openaiConfigured : Bool
  attempts : Nat → Except ThrownError GatewayResponse

def providerKnown (p : String) : Bool := p == "anthropic" || p == "openai"

def providerConfigured (env : SendEnv) (p : String) : Bool :=
  if p == "anthropic" then env.anthropicConfigured
  else if p == "openai" then env.openaiConfigured
  else false

/-- `VLMGateway.send`: unknown-provider and not-configured rejections, the
capability check (throwing `CapabilityError` with the joined messages and
the hard-coded `'vision'` hint), then the bounded retry loop.  Also returns
the number of adapter `send` invocations and the list of backoff delays. -/
def gwSend (cfg : RetryConfig) (env : SendEnv) (req : GatewayRequest) :
    Except ThrownError GatewayResponse × Nat × List Nat :=
  if ¬ providerKnown req.provider then
    (.error (.gatewayErr (mkGatewayError ("Unknown provider: " ++ req.provider)
      "UNKNOWN_PROVIDER" none none)), 0, [])
  else if ¬ providerConfigured env req.provider then
    (.error (.gatewayErr (mkGatewayError ("Provider " ++ req.provider ++ " is not configured")
      "NOT_CONFIGURED" (some req.provider) none)), 0, [])
  else
    match validateRequest req with
    | .error e => (.error (.gatewayErr e), 0, [])
    | .ok (valid, errors) =>
      if valid then
        sendLoop env.attempts cfg.backoffMs cfg.backoffMultiplier 0 cfg.maxRetries
      else
        (.error (.gatewayErr (mkCapabilityError (String.intercalate "; " errors)
          "vision" req.model (some req.provider))), 0, [])

/-- `VLMGateway.sendStream`: same entry checks as `send` (no retry); on
success the adapter's chunk sequence and terminal value pass through. -/
def gwSendStream (env : SendEnv) (req : GatewayRequest)
    (adapterStream : List StreamChunk × Except GatewayErrorS GatewayResponse) :
    List StreamChunk × Except ThrownError GatewayResponse :=
  if ¬ providerKnown req.provider then
    ([], .error (.gatewayErr (mkGatewayError ("Unknown provider: " ++ req.provider)
      "UNKNOWN_PROVIDER" none none)))
  else if ¬ providerConfigured env req.provider then
    ([], .error (.gatewayErr (mkGatewayError ("Provider " ++ req.provider ++ " is not configured")
      "NOT_CONFIGURED" (some req.provider) none)))
  else
    match validateRequest req with
    | .error e => ([], .error (.gatewayErr e))
    | .ok (valid, errors) =>
      if valid then
        (adapterStream.1, adapterStream.2.mapError ThrownError.gatewayErr)
      else
        ([], .error (.gatewayErr (mkCapabilityError (String.intercalate "; " errors)
          "vision" req.model (some req.provider))))

/-! ## Anthropic adapter: request/response transformation -/

def anthropicDefaultModel : String := "claude-sonnet-4-20250514"

inductive AnthBlock where
  | text (text : String)
  | image (media_type : String) (data : String)
  | document (data : String)
deriving DecidableEq, Repr

/-- `AnthropicMessage.content` is `string | AnthropicContentBlock[]`. -/
inductive AnthContent where
  | str (s : String)
  | blocks (l : List AnthBlock)
deriving DecidableEq, Repr

structure AnthMessage where
  role : MessageRole
  content : AnthContent
deriving DecidableEq, Repr

structure AnthropicRequest where
  model : String
  max_tokens : Nat
  messages : List AnthMessage
  system : Option String
  temperature : Option Int
  stream : Option Bool
deriving DecidableEq, Repr

/-- `AnthropicAdapter.transformContentPart`.  The TS signature allows a
`null` result but no branch produces one: every case returns a block or
throws `TransformError`. -/
def anthTransformContentPart (caps : ModelCapabilities) :
    ContentPart → Except GatewayErrorS AnthBlock
  | .text t => .ok (.text t)
  | .image data mt =>
    if caps.vision then .ok (.image mt data)
    else .error (mkTransformError "Model does not support vision/image input" (some "anthropic"))
  | .pdf data _ _ =>
    if caps.pdf then .ok (.document data)
    else .error (mkTransformError
      "Model does not support native PDF input. Convert to images first." (some "anthropic"))
  | .audio _ _ =>
    .error (mkTransformError "Anthropic does not support audio input" (some "anthropic"))
  | .video _ _ =>
    .error (mkTransformError "Anthropic does not support video input" (some "anthropic"))

def anthTransformParts (caps : ModelCapabilities) :
    List ContentPart → Except GatewayErrorS (List AnthBlock)
  | [] => .ok []
  | p :: rest => do
    let b ← anthTransformContentPart caps p
    let bs ← anthTransformParts caps rest
    .ok (b :: bs)

/-- `blocks.length === 1 && blocks[0].type === 'text'` collapses to plain
string content. -/
def anthCollapse : List AnthBlock → AnthContent
  | [AnthBlock.text t] => .str t
  | blocks => .blocks blocks

def anthTransformMessage (caps : ModelCapabilities) (m : Message) :
    Except GatewayErrorS AnthMessage :=
  match m.content with
  | .str s => .ok ⟨m.role, .str s⟩
  | .parts l => do
    let bs ← anthTransformParts caps l
    .ok ⟨m.role, anthCollapse bs⟩

/-- `systemPrompt ? systemPrompt + "\n\n" + content : content` (JS
truthiness: the empty string is falsy and is replaced, not prefixed). -/
def mergeSystem : Option String → String → String
  | some s0, s => if s0 == "" then s else s0 ++ "\n\n" ++ s
  | none, s => s

/-- The message loop of `AnthropicAdapter.transformRequest`: system-role
messages with string content are folded into the system prompt; system-role
messages with array content are skipped entirely; other messages are
transformed in order. -/
def anthProcessMessages (caps : ModelCapabilities) :
    List Message → Option String → Except GatewayErrorS (List AnthMessage × Option String)
  | [], sys => .ok ([], sys)
  | m :: rest, sys =>
    if m.role == .system then
      match m.content with
      | .str s => anthProcessMessages caps rest (some (mergeSystem sys s))
      | .parts _ => anthProcessMessages caps rest sys
    else do
      let am ← anthTransformMessage caps m
      let (ams, sys') ← anthProcessMessages caps rest sys
      .ok (am :: ams, sys')

/-- `...(systemPrompt && { system: systemPrompt })`: the field is omitted
when the accumulated prompt is absent or empty. -/
def jsTruthyString : Option String → Option String
  | some s => if s == "" then none else some s
  | none => none

/-- `AnthropicAdapter.transformRequest`. -/
def anthTransformRequest (defaultModel : String) (req : GatewayRequest) :
    Except GatewayErrorS AnthropicRequest :=
  let caps := anthropicGetModelCapabilities req.model
  match anthProcessMessages caps req.messages req.system with
  | .error e => .error e
  | .ok (msgs, sys) =>
    .ok { model := if req.model == "" then defaultModel else req.model
          max_tokens :=
            match req.maxTokens with
            | some t => if t == 0 then caps.maxOutputTokens else t
            | none => caps.maxOutputTokens
          messages := msgs
          system := jsTruthyString sys
          temperature := req.temperature
          stream := req.stream }

structure AnthUsage where
  input_tokens : Nat
  output_tokens : Nat
deriving DecidableEq, Repr

structure AnthropicResponse where
  id : String
  content : List AnthBlock
  model : String
  stop_reason : Option String
  usage : AnthUsage
deriving DecidableEq, Repr

/-- Non-text blocks map to a placeholder text part; nothing is dropped. -/
def anthBlockToPart : AnthBlock → ContentPart
  | .text t => .text t
  | .image _ _ => .text "[Unsupported block type: image]"
  | .document _ => .text "[Unsupported block type: document]"

/-- `stopReasonMap[stop_reason] || 'end_turn'`. -/
def anthStopReasonMap : Option String → String
  | some "end_turn" => "end_turn"
  | some "max_tokens" => "max_tokens"
  | some "stop_sequence" => "stop_sequence"
  | some "tool_use" => "tool_use"
  | _ => "end_turn"

/-- `AnthropicAdapter.transformResponse`. -/
def anthTransformResponse (resp : AnthropicResponse) (timing : Nat × Nat) : GatewayResponse :=
  { id := resp.id
    provider := "anthropic"
    model := resp.model
    content := resp.content.map anthBlockToPart
    stopReason := anthStopReasonMap resp.stop_reason
    usage := ⟨resp.usage.input_tokens, resp.usage.output_tokens⟩
    timing := ⟨timing.1, timing.2, (timing.2 : Int) - (timing.1 : Int)⟩ }

/-! ## Anthropic adapter: SSE stream processing -/

/-- One SSE line as the read loop sees it: a well-formed `data:` line
carrying a parsed event, a `data:` line with malformed JSON (skipped
silently), the `data: [DONE]` sentinel, or a non-`data:` line. -/
inductive SSELine (ev : Type) where
  | dataEvent (e : ev)
  | dataMalformed
  | dataDone
  | nonData
deriving DecidableEq, Repr

/-- Anthropic wire events, with exactly the fields the read loop consumes. -/
inductive AnthEvent where
  | messageStart (msg : AnthropicResponse)
  | contentBlockStart
  | textDelta (text : String)
  | otherDelta
  | contentBlockStop
  | messageDelta (outputTokens : Option Nat) (stopReason : Option String)
  | messageStop
  | unknownEvent
deriving DecidableEq, Repr

structure AnthStreamState where
  fullResponse : Option AnthropicResponse
  inputTokens : Nat
  outputTokens : Nat
deriving DecidableEq, Repr

/-- The `switch (event.type)` of `AnthropicAdapter.sendStream`; numeric
fields are guarded by JS truthiness (`0` does not overwrite). -/
def anthHandleEvent (st : AnthStreamState) : AnthEvent → AnthStreamState × List StreamChunk
  | .messageStart msg =>
    ({ st with
        fullResponse := some msg
        inputTokens :=
          if msg.usage.input_tokens != 0 then msg.usage.input_tokens else st.inputTokens },
     [chunkOf "message_start"])
  | .contentBlockStart => (st, [chunkOf "content_block_start"])
  | .textDelta t => (st, [chunkTextDelta t])
  | .otherDelta => (st, [])
  | .contentBlockStop => (st, [chunkOf "content_block_stop"])
  | .messageDelta outTok stopR =>
    let st1 := { st with outputTokens :=
      match outTok with
      | some n => if n != 0 then n else st.outputTokens
      | none => st.outputTokens }
    let st2 :=
      match st1.fullResponse, stopR with
      | some r, some s =>
        if s != "" then { st1 with fullResponse := some { r with stop_reason := some s } }
        else st1
      | _, _ => st1
    (st2, [])
  | .messageStop => (st, [chunkMessageStop ⟨st.inputTokens, st.outputTokens⟩])
  | .unknownEvent => (st, [])

/-- The SSE read loop: only well-formed `data:` lines reach the event
switch; everything else is skipped. -/
def runSSE {σ ev : Type} (handle : σ → ev → σ × List StreamChunk) (st : σ) :
    List (SSELine ev) → σ × List StreamChunk
  | [] => (st, [])
  | l :: ls =>
    let step :=
      match l with
      | .dataEvent e => handle st e
      | _ => (st, [])
    let rest := runSSE handle step.1 ls
    (rest.1, step.2 ++ rest.2)

def anthInitState : AnthStreamState := ⟨none, 0, 0⟩

/-- `AnthropicAdapter.sendStream` over an abstracted HTTP outcome: the
configured check, the transform, the HTTP status, the missing-body check,
the event loop, and the terminal synthesis (or `STREAM_ERROR` when no
`message_start` populated `fullResponse`). -/
def anthSendStream (configured : Bool) (defaultModel : String) (req : GatewayRequest)
    (status : Nat) (body : Option (List (SSELine AnthEvent))) (startTime endTime : Nat) :
    List StreamChunk × Except GatewayErrorS GatewayResponse :=
  if ¬ configured then
    ([], .error (mkGatewayError "Anthropic API key not configured" "NOT_CONFIGURED"
      (some "anthropic") none))
  else
    match anthTransformRequest defaultModel { req with stream := some true } with
    | .error e => ([], .error e)
    | .ok _ =>
      if 200 ≤ status ∧ status < 300 then
        match body with
        | none => ([], .error (mkGatewayError "No response body for streaming" "STREAM_ERROR"
            (some "anthropic") none))
        | some lines =>
          let run := runSSE anthHandleEvent anthInitState lines
          match run.1.fullResponse with
          | some r =>
            (run.2, .ok (anthTransformResponse
              { r with usage := ⟨run.1.inputTokens, run.1.outputTokens⟩ } (startTime, endTime)))
          | none =>
            (run.2, .error (mkGatewayError "Stream ended without complete response"
              "STREAM_ERROR" (some "anthropic") none))
      else
        ([], .error (mkGatewayError ("Anthropic API error: " ++ toString status) "API_ERROR"
          (some "anthropic") (some status)))

/-! ## OpenAI adapter: request/response transformation -/

def openaiDefaultModel : String := "gpt-4o-mini"

inductive OAIContent where
  | text (text : String)
  | imageUrl (url : String) (detail : String)
deriving DecidableEq, Repr

inductive OAIMessageContent where
  | str (s : String)
  | parts (l : List OAIContent)
deriving DecidableEq, Repr

structure OAIMessage where
  role : MessageRole
  content : OAIMessageContent
deriving DecidableEq, Repr

structure OpenAIRequest where
  model : String
  messages : List OAIMessage
  max_tokens : Option Nat
  temperature : Option Int
  stream : Option Bool
deriving DecidableEq, Repr

/-- `OpenAIAdapter.transformContentPart`; images become data URLs. -/
def oaiTransformContentPart (caps : ModelCapabilities) :
    ContentPart → Except GatewayErrorS OAIContent
  | .text t => .ok (.text t)
  | .image data mt =>
    if caps.vision then .ok (.imageUrl ("data:" ++ mt ++ ";base64," ++ data) "auto")
    else .error (mkTransformError "Model does not support vision/image input" (some "openai"))
  | .pdf _ _ _ =>
    .error (mkTransformError
      "OpenAI does not support native PDF input. Convert to images first." (some "openai"))
  | .audio _ _ =>
    .error (mkTransformError "OpenAI Chat API does not support audio input" (some "openai"))
  | .video _ _ =>
    .error (mkTransformError "OpenAI does not support video input" (some "openai"))

def oaiTransformParts (caps : ModelCapabilities) :
    List ContentPart → Except GatewayErrorS (List OAIContent)
  | [] => .ok []
  | p :: rest => do
    let b ← oaiTransformContentPart caps p
    let bs ← oaiTransformParts caps rest
    .ok (b :: bs)

/-- `parts.length === 1 && parts[0].type === 'text'` collapses to string
content. -/
def oaiCollapse : List OAIContent → OAIMessageContent
  | [OAIContent.text t] => .str t
  | parts => .parts parts

def oaiTransformMessage (caps : ModelCapabilities) (m : Message) :
    Except GatewayErrorS OAIMessage :=
  match m.content with
  | .str s => .ok ⟨m.role, .str s⟩
  | .parts l => do
    let bs ← oaiTransformParts caps l
    .ok ⟨m.role, oaiCollapse bs⟩

def oaiProcessMessages (caps : ModelCapabilities) :
    List Message → Except GatewayErrorS (List OAIMessage)
  | [] => .ok []
  | m :: rest => do
    let om ← oaiTransformMessage caps m
    let oms ← oaiProcessMessages caps rest
    .ok (om :: oms)

/-- `OpenAIAdapter.transformRequest`: `request.system` (when truthy) becomes
a leading `system`-role message; `...(request.maxTokens && …)` omits a zero
`max_tokens`. -/
def oaiTransformRequest (defaultModel : String) (req : GatewayRequest) :
    Except GatewayErrorS OpenAIRequest :=
  let caps := openaiGetModelCapabilities req.model
  let sysMsgs : List OAIMessage :=
    match req.system with
    | some s => if s == "" then [] else [⟨.system, .str s⟩]
    | none => []
  match oaiProcessMessages caps req.messages with
  | .error e => .error e
  | .ok msgs =>
    .ok { model := if req.model == "" then defaultModel else req.model
          messages := sysMsgs ++ msgs
          max_tokens :=
            match req.maxTokens with
            | some t => if t == 0 then none else some t
            | none => none
          temperature := req.temperature
          stream := req.stream }

structure OAIChoiceMessage where
  role : MessageRole
  content : String
deriving DecidableEq, Repr

structure OAIChoice where
  index : Nat
  message : OAIChoiceMessage
  finish_reason : String
deriving DecidableEq, Repr

structure OAIUsage where
  prompt_tokens : Nat
  completion_tokens : Nat
  total_tokens : Nat
deriving DecidableEq, Repr

structure OpenAIResponse where
  id : String
  created : Nat
  model : String
  choices : List OAIChoice
  usage : OAIUsage
deriving DecidableEq, Repr

/-- `stopReasonMap[choice?.finish_reason] || 'end_turn'`. -/
def oaiStopReasonMap : String → String
  | "stop" => "end_turn"
  | "length" => "max_tokens"
  | "tool_calls" => "tool_use"
  | "content_filter" => "end_turn"
  | _ => "end_turn"

/-- `OpenAIAdapter.transformResponse`: the first choice's message text
becomes a single canonical text part (empty string when absent). -/
def oaiTransformResponse (resp : OpenAIResponse) (timing : Nat × Nat) : GatewayResponse :=
  { id := resp.id
    provider := "openai"
    model := resp.model
    content := [.text (match resp.choices.head? with
      | some c => c.message.content
      | none => "")]
    stopReason :=
      match resp.choices.head? with
      | some c => oaiStopReasonMap c.finish_reason
      | none => "end_turn"
    usage := ⟨resp.usage.prompt_tokens, resp.usage.completion_tokens⟩
    timing := ⟨timing.1, timing.2, (timing.2 : Int) - (timing.1 : Int)⟩ }

/-! ## OpenAI adapter: SSE stream processing -/

/-- One parsed OpenAI stream chunk: `choices[0].delta.content` and
`choices[0].finish_reason`, the only fields the loop reads. -/
structure OAIStreamEvent where
  content : Option String
  finish_reason : Option String
deriving DecidableEq, Repr

structure OAIStreamState where
  fullContent : String
  finishReason : String
deriving DecidableEq, Repr

/-- Body of the OpenAI read loop: truthy `delta.content` is appended to
`fullContent` and yielded; truthy `finish_reason` is recorded. -/
def oaiHandleEvent (st : OAIStreamState) (e : OAIStreamEvent) :
    OAIStreamState × List StreamChunk :=
  let step :=
    match e.content with
    | some c =>
      if c != "" then ({ st with fullContent := st.fullContent ++ c }, [chunkTextDelta c])
      else (st, [])
    | none => (st, [])
  let st2 :=
    match e.finish_reason with
    | some f => if f != "" then { step.1 with finishReason := f } else step.1
    | none => step.1
  (st2, step.2)

/-- `OpenAIAdapter.sendStream`: after the entry checks it always synthesizes
a terminal response from the accumulated text, with hard-coded zero usage;
there is no check that a terminal `[DONE]` was ever observed. -/
def oaiSendStream (configured : Bool) (defaultModel : String) (req : GatewayRequest)
    (status : Nat) (body : Option (List (SSELine OAIStreamEvent))) (startTime endTime : Nat) :
    List StreamChunk × Except GatewayErrorS GatewayResponse :=
  if ¬ configured then
    ([], .error (mkGatewayError "OpenAI API key not configured" "NOT_CONFIGURED"
      (some "openai") none))
  else
    match oaiTransformRequest defaultModel { req with stream := some true } with
    | .error e => ([], .error e)
    | .ok _ =>
      if 200 ≤ status ∧ status < 300 then
        match body with
        | none => ([], .error (mkGatewayError "No response body for streaming" "STREAM_ERROR"
            (some "openai") none))
        | some lines =>
          let run := runSSE oaiHandleEvent ⟨"", "stop"⟩ lines
          let synthetic : OpenAIResponse :=
            { id := "stream-" ++ toString startTime
              created := startTime / 1000
              model := if req.model == "" then defaultModel else req.model
              choices := [⟨0, ⟨.assistant, run.1.fullContent⟩, run.1.finishReason⟩]
              usage := ⟨0, 0, 0⟩ }
          (chunkOf "message_start" :: run.2 ++ [chunkOf "message_stop"],
           .ok (oaiTransformResponse synthetic (startTime, endTime)))
      else
        ([], .error (mkGatewayError ("OpenAI API error: " ++ toString status) "API_ERROR"
          (some "openai") (some status)))

/-! ## Test fixtures used by the concrete claims -/

/-- A single-user-message text request. -/
def textOnlyReq (provider model s : String) : GatewayRequest :=
  ⟨provider, model, [⟨.user, .str s⟩], none, none, none, none⟩

/-- A single-user-message request with the given parts. -/
def partsReq (provider model : String) (l : List ContentPart) : GatewayRequest :=
  ⟨provider, model, [⟨.user, .parts l⟩], none, none, none, none⟩

def sampleOkResponse : GatewayResponse :=
  ⟨"msg_ok", "anthropic", "claude-sonnet-4-20250514", [.text "fine"], "end_turn",
    ⟨10, 5⟩, ⟨0, 0, 0⟩⟩

/-- Adapter behaviour: HTTP-500 `GatewayError` on attempts 0 and 1, success
on attempt 2. -/
def env500 : SendEnv :=
  ⟨true, true, fun n =>
    if n ≤ 1 then
      .error (.gatewayErr (mkGatewayError "Anthropic API error: 500" "API_ERROR"
        (some "anthropic") (some 500)))
    else .ok sampleOkResponse⟩

def err400 : GatewayErrorS :=
  mkGatewayError "Anthropic API error: 400" "API_ERROR" (some "anthropic") (some 400)

/-- Adapter behaviour: HTTP-400 `GatewayError` on every attempt. -/
def env400 : SendEnv := ⟨true, true, fun _ => .error (.gatewayErr err400)⟩

/-! ## Spec-side predicates for the validation claims -/

/-- Spec-side reading of the capability gate: a part whose type's capability
flag is off in the resolved capabilities (text is never gated). -/
def partUnsupported (caps : ModelCapabilities) : ContentPart → Bool
  | .text _ => false
  | .image _ _ => !caps.vision
  | .pdf _ _ _ => !caps.pdf
  | .audio _ _ => !caps.audio
  | .video _ _ => !caps.video

/-- The name of a part's content type as the validation messages spell it. -/
def partTypeName : ContentPart → String
  | .text _ => "text"
  | .image _ _ => "image"
  | .pdf _ _ _ => "PDF"
  | .audio _ _ => "audio"
  | .video _ _ => "video"

/-- Spec-side count of violating parts across all messages. -/
def countViolatingParts (caps : ModelCapabilities) (msgs : List Message) : Nat :=
  (msgs.map (fun m =>
    match m.content with
    | .str _ => 0
    | .parts l => l.countP (fun p => partUnsupported caps p))).sum

/-- A message whose content is a plain string or an array of text parts only. -/
def messageTextOnly : Message → Bool
  | ⟨_, .str _⟩ => true
  | ⟨_, .parts l⟩ => l.all (fun p => match p with | .text _ => true | _ => false)

/-! ## Lemmas about `validateRequest` -/

theorem partViolation_isSome (caps : ModelCapabilities) (model : String) (p : ContentPart) :
    (partViolation caps model p).isSome = partUnsupported caps p := by
  cases p with
  | text t => simp [partViolation, partUnsupported]
  | image d mt => cases hv : caps.vision <;> simp [partViolation, partUnsupported, hv]
  | pdf d pr fn => cases hv : caps.pdf <;> simp [partViolation, partUnsupported, hv]
  | audio d mt => cases hv : caps.audio <;> simp [partViolation, partUnsupported, hv]
  | video d mt => cases hv : caps.video <;> simp [partViolation, partUnsupported, hv]

theorem length_filterMap_partViolation (caps : ModelCapabilities) (model : String)
    (l : List ContentPart) :
    (l.filterMap (partViolation caps model)).length
      = l.countP (fun p => partUnsupported caps p) := by
  induction l with
  | nil => simp
  | cons p rest ih =>
    have hs := partViolation_isSome caps model p
    cases hf : partViolation caps model p with
    | none =>
      have hu : partUnsupported caps p = false := by rw [← hs, hf]; rfl
      simp [List.filterMap_cons, hf, List.countP_cons, hu, ih]
    | some msg =>
      have hu : partUnsupported caps p = true := by rw [← hs, hf]; rfl
      simp [List.filterMap_cons, hf, List.countP_cons, hu, ih]

theorem messageViolations_length (caps : ModelCapabilities) (model : String) (m : Message) :
    (messageViolations caps model m).length
      = match m.content with
        | .str _ => 0
        | .parts l => l.countP (fun p => partUnsupported caps p) := by
  cases m with
  | mk role content =>
    cases content with
    | str s => simp [messageViolations]
    | parts l => simpa [messageViolations] using length_filterMap_partViolation caps model l

theorem validateErrors_length (caps : ModelCapabilities) (model : String)
    (msgs : List Message) :
    (validateErrors caps model msgs).length = countViolatingParts caps msgs := by
  induction msgs with
  | nil => simp [validateErrors, countViolatingParts]
  | cons m rest ih =>
    simp only [validateErrors, countViolatingParts, List.map_cons, List.flatten_cons,
      List.length_append, List.sum_cons] at *
    rw [ih, messageViolations_length]

theorem violation_mem_validateErrors (caps : ModelCapabilities) (model : String)
    {msgs : List Message} {m : Message} (hm : m ∈ msgs) {l : List ContentPart}
    (hc : m.content = .parts l) {p : ContentPart} (hp : p ∈ l) {s : String}
    (hv : partViolation caps model p = some s) :
    s ∈ validateErrors caps model msgs := by
  unfold validateErrors
  apply List.mem_flatten.mpr
  refine ⟨messageViolations caps model m, List.mem_map_of_mem _ hm, ?_⟩
  rw [messageViolations, hc]
  exact List.mem_filterMap.mpr ⟨p, hp, hv⟩

theorem validateErrors_eq_nil_iff (caps : ModelCapabilities) (model : String)
    (msgs : List Message) :
    validateErrors caps model msgs = []
      ↔ ∀ m ∈ msgs, ∀ l, m.content = .parts l → ∀ p ∈ l,
          partUnsupported caps p = false := by
  constructor
  · intro h m hm l hc p hp
    by_contra hbad
    have hu : partUnsupported caps p = true := by
      cases hval : partUnsupported caps p
      · exact absurd hval hbad
      · rfl
    have hsome : (partViolation caps model p).isSome = true := by
      rw [partViolation_isSome, hu]
    obtain ⟨s, hs⟩ := Option.isSome_iff_exists.mp hsome
    have := violation_mem_validateErrors caps model hm hc hp hs
    rw [h] at this
    exact absurd this (List.not_mem_nil s)
  · intro h
    have hlen : (validateErrors caps model msgs).length = 0 := by
      rw [validateErrors_length]
      unfold countViolatingParts
      apply List.sum_eq_zero
      intro x hx
      obtain ⟨m, hm, rfl⟩ := List.mem_map.mp hx
      cases hc : m.content with
      | str s => simp [hc]
      | parts l =>
        simp only [hc]
        apply List.countP_eq_zero.mpr
        intro p hp
        simp [h m hm l hc p hp]
    exact List.length_eq_zero.mp hlen

/-- Produced violation messages name the offending content type. -/
theorem violationMsg_names_type (caps : ModelCapabilities) (model : String)
    (p : ContentPart) (s : String) (h : partViolation caps model p = some s) :
    (partTypeName p).data <:+: s.data := by
  have extend : ∀ (pre : List Char) {sub t : List Char}, sub <:+: t → sub <:+: pre ++ t := by
    intro pre sub t ht
    obtain ⟨u, v, huv⟩ := ht
    exact ⟨pre ++ u, v, by rw [← huv]; simp⟩
  cases p with
  | text t => simp [partViolation] at h
  | image d mt =>
    cases hv : caps.vision
    · rw [partViolation, hv] at h
      simp only [Bool.false_eq_true, if_false, Option.some.injEq] at h
      subst h
      show ("image".data : List Char) <:+: (("Model " ++ model) ++ " does not support image input").data
      rw [String.data_append]
      exact extend _ (by decide)
    · rw [partViolation, hv] at h
      simp at h
  | pdf d pr fn =>
    cases hv : caps.pdf
    · rw [partViolation, hv] at h
      simp only [Bool.false_eq_true, if_false, Option.some.injEq] at h
      subst h
      show ("PDF".data : List Char) <:+: (("Model " ++ model) ++ " does not support native PDF input").data
      rw [String.data_append]
      exact extend _ (by decide)
    · rw [partViolation, hv] at h
      simp at h
  | audio d mt =>
    cases hv : caps.audio
    · rw [partViolation, hv] at h
      simp only [Bool.false_eq_true, if_false, Option.some.injEq] at h
      subst h
      show ("audio".data : List Char) <:+: (("Model " ++ model) ++ " does not support audio input").data
      rw [String.data_append]
      exact extend _ (by decide)
    · rw [partViolation, hv] at h
      simp at h
  | video d mt =>
    cases hv : caps.video
    · rw [partViolation, hv] at h
      simp only [Bool.false_eq_true, if_false, Option.some.injEq] at h
      subst h
      show ("video".data : List Char) <:+: (("Model " ++ model) ++ " does not support video input").data
      rw [String.data_append]
      exact extend _ (by decide)
    · rw [partViolation, hv] at h
      simp at h

theorem gatewayModelCaps_ok_providerKnown {provider model : String}
    {caps : ModelCapabilities} (h : gatewayModelCaps provider model = .ok caps) :
    providerKnown provider = true := by
  unfold gatewayModelCaps at h
  unfold providerKnown
  by_cases h1 : provider == "anthropic"
  · simp [h1]
  · by_cases h2 : provider == "openai"
    · simp [h1, h2]
    · simp [h1, h2] at h

/-! ## Claims -/

/-- **C2.** With the default retry configuration (`maxRetries = 3`,
`backoffMs = 1000`, `backoffMultiplier = 2`): an adapter failing with an
HTTP-500 `GatewayError` on the first two attempts and succeeding on the
third makes `send` return the success response after exactly three adapter
invocations and exactly two backoff delays `1000 * 2^0 = 1000` ms and
`1000 * 2^1 = 2000` ms; a `GatewayError` carrying a 4xx status code is
re-thrown immediately — one adapter invocation, no delay — both in the
concrete 400 scenario and for any attempt index, configuration, and 4xx
status. -/
theorem C2_retry_boundary :
    (gwSend defaultRetryConfig env500 (textOnlyReq "anthropic" "claude-sonnet-4-20250514" "hi")
      = (.ok sampleOkResponse, 3, [1000, 2000]))
    ∧ (gwSend defaultRetryConfig env400 (textOnlyReq "anthropic" "claude-sonnet-4-20250514" "hi")
      = (.error (.gatewayErr err400), 1, []))
    ∧ (∀ (attempts : Nat → Except ThrownError GatewayResponse)
        (backoffMs mult attempt remaining : Nat) (g : GatewayErrorS) (s : Nat),
        attempts attempt = .error (.gatewayErr g) →
        g.statusCode = some s → 400 ≤ s → s < 500 →
        sendLoop attempts backoffMs mult attempt remaining
          = (.error (.gatewayErr g), 1, [])) := by
  refine ⟨by rfl, by rfl, ?_⟩
  intro attempts backoffMs mult attempt remaining g s hatt hcode h400 h500
  have hclient : isClientError (.gatewayErr g) = true := by
    simp [isClientError, hcode]
    omega
  rw [sendLoop, hatt]
  simp [hclient]

/-- **C2 witness** for the quantified 4xx clause, instantiated at attempt 0
of the concrete 400-failing adapter. -/
theorem C2_retry_boundary_witness :
    sendLoop env400.attempts 1000 2 0 3 = (.error (.gatewayErr err400), 1, []) :=
  C2_retry_boundary.2.2 env400.attempts 1000 2 0 3 err400 400 rfl rfl
    (by decide) (by decide)

/-- Fixture for the capability-gating claims: a pdf part and an audio part
sent to `claude-3-opus-20240229`, whose capabilities have `pdf = false`
(and `audio = false`). -/
def reqPdfAudio : GatewayRequest :=
  partsReq "anthropic" "claude-3-opus-20240229"
    [.pdf "JVBERi0=" none none, .audio "QUJD" "audio/wav"]

/-- Fixture: a single unsupported pdf part (the only violation). -/
def reqPdfOnly : GatewayRequest :=
  partsReq "anthropic" "claude-3-opus-20240229" [.pdf "JVBERi0=" none none]

/-- **C1.** For a request whose provider resolves (and whose adapter is
configured), `validateRequest` aggregates one violation message per
violating part — `errs.length` equals the number of violating parts, every
violating part contributes a message naming its content type, and
`valid = true` exactly when no part violates; when violations exist,
`send` rejects with the `CapabilityError` built from the joined messages
after zero adapter invocations and zero backoff delays (no network call). -/
theorem C1_capability_gating (cfg : RetryConfig) (env : SendEnv) (req : GatewayRequest)
    (caps : ModelCapabilities)
    (hcaps : gatewayModelCaps req.provider req.model = .ok caps)
    (hconf : providerConfigured env req.provider = true) :
    ∃ errs, validateRequest req = .ok (errs.isEmpty, errs)
      ∧ errs.length = countViolatingParts caps req.messages
      ∧ (∀ m ∈ req.messages, ∀ l, m.content = .parts l → ∀ p ∈ l,
          partUnsupported caps p = true →
          ∃ s, partViolation caps req.model p = some s ∧ s ∈ errs
            ∧ (partTypeName p).data <:+: s.data)
      ∧ (errs = [] ↔ ∀ m ∈ req.messages, ∀ l, m.content = .parts l → ∀ p ∈ l,
          partUnsupported caps p = false)
      ∧ (errs ≠ [] →
          gwSend cfg env req
            = (.error (.gatewayErr (mkCapabilityError (String.intercalate "; " errs)
                "vision" req.model (some req.provider))), 0, [])) := by
  refine ⟨validateErrors caps req.model req.messages, ?_, ?_, ?_, ?_, ?_⟩
  · unfold validateRequest
    rw [hcaps]
  · exact validateErrors_length caps req.model req.messages
  · intro m hm l hc p hp hu
    have hsome : (partViolation caps req.model p).isSome = true := by
      rw [partViolation_isSome, hu]
    obtain ⟨s, hs⟩ := Option.isSome_iff_exists.mp hsome
    exact ⟨s, hs, violation_mem_validateErrors caps req.model hm hc hp hs,
      violationMsg_names_type caps req.model p s hs⟩
  · exact validateErrors_eq_nil_iff caps req.model req.messages
  · intro hne
    have hknown := gatewayModelCaps_ok_providerKnown hcaps
    have hval : validateRequest req
        = .ok ((validateErrors caps req.model req.messages).isEmpty,
          validateErrors caps req.model req.messages) := by
      unfold validateRequest
      rw [hcaps]
    have hempty : (validateErrors caps req.model req.messages).isEmpty = false := by
      cases hE : validateErrors caps req.model req.messages with
      | nil => exact absurd hE hne
      | cons a as => simp
    unfold gwSend
    simp [hknown, hconf, hval, hempty]

/-- **C1 witness**: the pdf + audio request against `claude-3-opus-20240229`
is rejected by `send` with both violation messages joined, before any
adapter call. -/
theorem C1_capability_gating_witness :
    gwSend defaultRetryConfig env400 reqPdfAudio
      = (.error (.gatewayErr (mkCapabilityError (String.intercalate "; "
          ["Model claude-3-opus-20240229 does not support native PDF input",
           "Model claude-3-opus-20240229 does not support audio input"])
          "vision" "claude-3-opus-20240229" (some "anthropic"))), 0, []) := by
  obtain ⟨errs, h1, h2, h3, h4, h5⟩ := C1_capability_gating defaultRetryConfig env400
    reqPdfAudio (anthropicGetModelCapabilities "claude-3-opus-20240229") rfl rfl
  have hval : validateRequest reqPdfAudio
      = .ok (false, ["Model claude-3-opus-20240229 does not support native PDF input",
          "Model claude-3-opus-20240229 does not support audio input"]) := by decide
  have herrs : errs
      = ["Model claude-3-opus-20240229 does not support native PDF input",
         "Model claude-3-opus-20240229 does not support audio input"] :=
    congrArg Prod.snd (Except.ok.inj (h1.symm.trans hval))
  subst herrs
  exact h5 (by decide)

/-- **C10.** Requests to a known provider whose message contents are all
plain strings or text-only part arrays always validate: text content is
never gated by any capability flag, whatever the resolved model is. -/
theorem C10_text_never_gated (req : GatewayRequest) (caps : ModelCapabilities)
    (hcaps : gatewayModelCaps req.provider req.model = .ok caps)
    (htext : ∀ m ∈ req.messages, messageTextOnly m = true) :
    validateRequest req = .ok (true, []) := by
  have hnil : validateErrors caps req.model req.messages = [] := by
    apply (validateErrors_eq_nil_iff caps req.model req.messages).mpr
    intro m hm l hc p hp
    have ht := htext m hm
    cases m with
    | mk role content =>
      cases content with
      | str s => exact absurd hc (by simp)
      | parts l2 =>
        have hl : l2 = l := by
          have := hc
          simp only [MessageContent.parts.injEq] at this
          exact this
        subst hl
        unfold messageTextOnly at ht
        have hp2 := List.all_eq_true.mp ht p hp
        cases p <;> simp_all [partUnsupported]
  unfold validateRequest
  rw [hcaps]
  simp [hnil]

/-- **C10 witness**: a text-only parts message to `openai`/`o1-mini` (a
model with `vision = false`) still validates. -/
theorem C10_text_never_gated_witness :
    validateRequest (partsReq "openai" "o1-mini" [.text "hello"]) = .ok (true, []) :=
  C10_text_never_gated (partsReq "openai" "o1-mini" [.text "hello"])
    (openaiGetModelCapabilities "o1-mini") rfl (by decide)

/-- **C6 counterexample.** With a pdf part as the *only* violation, the
`CapabilityError` thrown by `send` carries `requiredCapability = "vision"`,
not `"pdf"` — the hint is hard-coded, so "the name of the first violated
capability" is false. -/
theorem C6_counterexample :
    validateRequest reqPdfOnly
      = .ok (false, ["Model claude-3-opus-20240229 does not support native PDF input"])
    ∧ (gwSend defaultRetryConfig env400 reqPdfOnly).1
      = .error (.gatewayErr (mkCapabilityError
          "Model claude-3-opus-20240229 does not support native PDF input"
          "vision" "claude-3-opus-20240229" (some "anthropic")))
    ∧ (mkCapabilityError
          "Model claude-3-opus-20240229 does not support native PDF input"
          "vision" "claude-3-opus-20240229" (some "anthropic")).requiredCapability
      ≠ some "pdf" := by
  refine ⟨by decide, by rfl, by decide⟩

/-- **C6 (amended).** When validation fails, `send` and `sendStream` reject
with a `CapabilityError` whose message is the violation messages joined by
`"; "` and whose `requiredCapability` is always the hard-coded `"vision"`,
regardless of which capability was actually violated. -/
theorem C6_capability_error_fields (cfg : RetryConfig) (env : SendEnv) (req : GatewayRequest)
    (errs : List String)
    (hknown : providerKnown req.provider = true)
    (hconf : providerConfigured env req.provider = true)
    (hval : validateRequest req = .ok (false, errs)) :
    gwSend cfg env req
      = (.error (.gatewayErr (mkCapabilityError (String.intercalate "; " errs)
          "vision" req.model (some req.provider))), 0, [])
    ∧ ∀ astream, gwSendStream env req astream
      = ([], .error (.gatewayErr (mkCapabilityError (String.intercalate "; " errs)
          "vision" req.model (some req.provider)))) := by
  constructor
  · unfold gwSend
    simp [hknown, hconf, hval]
  · intro astream
    unfold gwSendStream
    simp [hknown, hconf, hval]

/-- **C6 witness**: the amended shape at the pdf-only request, on the
`sendStream` side. -/
theorem C6_capability_error_fields_witness :
    gwSendStream env400 reqPdfOnly ([], .ok sampleOkResponse)
      = ([], .error (.gatewayErr (mkCapabilityError
          "Model claude-3-opus-20240229 does not support native PDF input"
          "vision" "claude-3-opus-20240229" (some "anthropic")))) :=
  (C6_capability_error_fields defaultRetryConfig env400 reqPdfOnly
    ["Model claude-3-opus-20240229 does not support native PDF input"]
    rfl rfl (by decide)).2 ([], .ok sampleOkResponse)

/-- **C8 counterexample.** `gpt-4o-2025` is unregistered and matches none of
the patterns the claim names (no `opus` substring, no `gpt-4o-mini`
prefix), yet `getModelCapabilities` returns the GPT-4o family set, not the
provider baseline `GPT4_VISION_CAPABILITIES` — the claim's "any other
unknown identifier returns the provider's baseline capability set" is
false. -/
theorem C8_counterexample :
    openaiModelTable.lookup "gpt-4o-2025" = none
    ∧ strIncludes "gpt-4o-2025" "opus" = false
    ∧ strStartsWith "gpt-4o-2025" "gpt-4o-mini" = false
    ∧ openaiGetModelCapabilities "gpt-4o-2025" = GPT4O_CAPABILITIES
    ∧ ¬ openaiGetModelCapabilities "gpt-4o-2025" = GPT4_VISION_CAPABILITIES := by
  decide

/-- **C8 (amended).** `getModelCapabilities` is total on both adapters and
resolves: an exactly registered identifier to its table entry; an
unregistered Anthropic identifier containing `opus` to the Claude-Opus
family; every other unregistered Anthropic identifier to the Claude 3
baseline; an unregistered OpenAI identifier by prefix `gpt-4o-mini` →
GPT-4o-mini family, else prefix `gpt-4o`/`gpt-4-turbo`/`o1` → GPT-4o
family, else the GPT-4 Vision baseline. -/
theorem C8_model_capabilities :
    (∀ m c, anthropicModelTable.lookup m = some c → anthropicGetModelCapabilities m = c)
    ∧ (∀ m, anthropicModelTable.lookup m = none → strIncludes m "opus" = true →
        anthropicGetModelCapabilities m = CLAUDE_OPUS_CAPABILITIES)
    ∧ (∀ m, anthropicModelTable.lookup m = none → strIncludes m "opus" = false →
        anthropicGetModelCapabilities m = CLAUDE_3_CAPABILITIES)
    ∧ (∀ m c, openaiModelTable.lookup m = some c → openaiGetModelCapabilities m = c)
    ∧ (∀ m, openaiModelTable.lookup m = none → strStartsWith m "gpt-4o-mini" = true →
        openaiGetModelCapabilities m = GPT4O_MINI_CAPABILITIES)
    ∧ (∀ m, openaiModelTable.lookup m = none → strStartsWith m "gpt-4o-mini" = false →
        (strStartsWith m "gpt-4o" || strStartsWith m "gpt-4-turbo" || strStartsWith m "o1") = true →
        openaiGetModelCapabilities m = GPT4O_CAPABILITIES)
    ∧ (∀ m, openaiModelTable.lookup m = none → strStartsWith m "gpt-4o-mini" = false →
        strStartsWith m "gpt-4o" = false → strStartsWith m "gpt-4-turbo" = false →
        strStartsWith m "o1" = false →
        openaiGetModelCapabilities m = GPT4_VISION_CAPABILITIES) := by
  refine ⟨?_, ?_, ?_, ?_, ?_, ?_, ?_⟩
  · intro m c h; simp [anthropicGetModelCapabilities, h]
  · intro m h ho; simp [anthropicGetModelCapabilities, h, ho]
  · intro m h ho
    cases h3 : strIncludes m "claude-3" <;>
      simp [anthropicGetModelCapabilities, h, ho, h3]
  · intro m c h; simp [openaiGetModelCapabilities, h]
  · intro m h hm; simp [openaiGetModelCapabilities, h, hm]
  · intro m h hm ho
    have hcases : (strStartsWith m "gpt-4o" = true ∨ strStartsWith m "gpt-4-turbo" = true)
        ∨ strStartsWith m "o1" = true := by
      simpa [Bool.or_eq_true] using ho
    rcases hcases with (h1 | h2) | h3
    · simp [openaiGetModelCapabilities, h, hm, h1]
    · cases h1 : strStartsWith m "gpt-4o" <;>
        simp [openaiGetModelCapabilities, h, hm, h1, h2]
    · cases h1 : strStartsWith m "gpt-4o" <;> cases h2 : strStartsWith m "gpt-4-turbo" <;>
        simp [openaiGetModelCapabilities, h, hm, h1, h2, h3]
  · intro m h hm h1 h2 h3; simp [openaiGetModelCapabilities, h, hm, h1, h2, h3]

/-- **C8 witness**: the amended resolution applied at concrete inputs — the
registered `claude-3-haiku-20240307` maps to its table entry, and the
unregistered `my-opus-alias` (substring match) to the Claude-Opus family. -/
theorem C8_model_capabilities_witness :
    anthropicGetModelCapabilities "claude-3-haiku-20240307"
      = { CLAUDE_3_CAPABILITIES with pdf := false, maxOutputTokens := 4096 }
    ∧ anthropicGetModelCapabilities "my-opus-alias" = CLAUDE_OPUS_CAPABILITIES :=
  ⟨C8_model_capabilities.1 "claude-3-haiku-20240307" _ (by decide),
   C8_model_capabilities.2.1 "my-opus-alias" (by decide) (by decide)⟩

/-! ## Lemmas about `findCapableProvider` -/

/-- Spec-side reading of the routing flag check: a required content type the
capabilities can serve (text imposes nothing). -/
def typeSatisfied (caps : ModelCapabilities) : PartType → Bool
  | .text => true
  | .image => caps.vision
  | .pdf => caps.pdf
  | .audio => caps.audio
  | .video => caps.video

theorem modelCapableFor_eq_all (caps : ModelCapabilities) (types : List PartType) :
    modelCapableFor caps types = types.all (typeSatisfied caps) := by
  have general : ∀ (ts : List PartType) (acc : Bool),
      ts.foldl (fun capable t =>
        match t with
        | PartType.image => if caps.vision then capable else false
        | PartType.pdf => if caps.pdf then capable else false
        | PartType.audio => if caps.audio then capable else false
        | PartType.video => if caps.video then capable else false
        | PartType.text => capable) acc = (acc && ts.all (typeSatisfied caps)) := by
    intro ts
    induction ts with
    | nil => intro acc; simp
    | cons t rest ih =>
      intro acc
      rw [List.foldl_cons, ih, List.all_cons]
      have hstep : (match t with
          | PartType.image => if caps.vision then acc else false
          | PartType.pdf => if caps.pdf then acc else false
          | PartType.audio => if caps.audio then acc else false
          | PartType.video => if caps.video then acc else false
          | PartType.text => acc) = (acc && typeSatisfied caps t) := by
        cases t with
        | text => simp [typeSatisfied]
        | image => cases hv : caps.vision <;> simp [typeSatisfied, hv]
        | pdf => cases hv : caps.pdf <;> simp [typeSatisfied, hv]
        | audio => cases hv : caps.audio <;> simp [typeSatisfied, hv]
        | video => cases hv : caps.video <;> simp [typeSatisfied, hv]
      rw [hstep, Bool.and_assoc]
  unfold modelCapableFor
  rw [general types true]
  simp

theorem findCapableModelIn_eq_find (models : List (String × ModelCapabilities))
    (types : List PartType) :
    findCapableModelIn models types
      = (models.find? (fun e => types.all (typeSatisfied e.2))).map Prod.fst := by
  induction models with
  | nil => simp [findCapableModelIn]
  | cons e rest ih =>
    cases e with
    | mk mid caps =>
      rw [findCapableModelIn, modelCapableFor_eq_all]
      cases h : types.all (typeSatisfied caps) with
      | false => simp [List.find?_cons_of_neg, h, ih]
      | true => simp [List.find?_cons_of_pos, h]

theorem findOther_eq_none_iff (ps : List ProviderEntry) (types : List PartType)
    (pref : Option String) (l : List String) :
    findOther ps types pref l = none
      ↔ ∀ pid ∈ l, pref ≠ some pid →
          findCapableModelIn (modelsFor ps pid) types = none := by
  induction l with
  | nil => simp [findOther]
  | cons pid rest ih =>
    rw [findOther]
    by_cases hpe : pref = some pid
    · rw [if_pos hpe, ih]
      constructor
      · intro h q hq hne
        rcases List.mem_cons.mp hq with rfl | hq2
        · exact absurd hpe hne
        · exact h q hq2 hne
      · intro h q hq hne
        exact h q (List.mem_cons_of_mem _ hq) hne
    · rw [if_neg hpe]
      cases hm : findCapableModelIn (modelsFor ps pid) types with
      | some m =>
        constructor
        · intro h; exact absurd h (by simp)
        · intro h
          have := h pid (List.mem_cons_self _ _) hpe
          rw [hm] at this
          exact absurd this (by simp)
      | none =>
        rw [ih]
        constructor
        · intro h q hq hne
          rcases List.mem_cons.mp hq with rfl | hq2
          · exact hm
          · exact h q hq2 hne
        · intro h q hq hne
          exact h q (List.mem_cons_of_mem _ hq) hne

theorem findOther_eq_findSome (ps : List ProviderEntry) (types : List PartType)
    (pref : Option String) (l : List String) :
    findOther ps types pref l
      = (l.filter (fun pid => decide (pref ≠ some pid))).findSome?
          (fun pid => (findCapableModelIn (modelsFor ps pid) types).map
            (fun m => (pid, m))) := by
  induction l with
  | nil => simp [findOther]
  | cons pid rest ih =>
    rw [findOther]
    by_cases hpe : pref = some pid
    · rw [if_pos hpe]
      have hne : decide (pref ≠ some pid) = false := by simp [hpe]
      simp only [List.filter_cons, hne, Bool.false_eq_true, if_false]
      exact ih
    · rw [if_neg hpe]
      have hne : decide (pref ≠ some pid) = true := by simp [hpe]
      simp only [List.filter_cons, hne, if_true, List.findSome?_cons]
      cases hm : findCapableModelIn (modelsFor ps pid) types with
      | some m => simp
      | none => simpa using ih

theorem contains_eq_true_iff_mem (l : List String) (a : String) :
    l.contains a = true ↔ a ∈ l := by
  induction l with
  | nil => simp
  | cons b rest ih =>
    rw [List.contains_cons]
    constructor
    · intro h
      rcases Bool.or_eq_true_iff.mp h with h1 | h2
      · exact beq_iff_eq.mp h1 ▸ List.mem_cons_self _ _
      · exact List.mem_cons_of_mem _ (ih.mp h2)
    · intro h
      rcases List.mem_cons.mp h with rfl | h2
      · simp
      · exact Bool.or_eq_true_iff.mpr (Or.inr (ih.mpr h2))

/-- **C9.** `findCapableProvider` tries the preferred provider first when it
is configured (returning its first capable model), otherwise scans the
other configured providers in registration order via a first-hit search;
within a provider the first registry entry whose flags satisfy every
required content type is chosen; the result is `none` exactly when no
configured provider has a capable model; and in the concrete two-provider
registration where only the second provider supports pdf,
`findCapableProvider` with `[pdf]` returns the second provider's first
pdf-capable model. -/
theorem C9_routing :
    (∀ (ps : List ProviderEntry) (types : List PartType) (p m : String),
        p ∈ listConfiguredProviders ps →
        findCapableModelIn (modelsFor ps p) types = some m →
        findCapableProvider ps types (some p) = some (p, m))
    ∧ (∀ (models : List (String × ModelCapabilities)) (types : List PartType),
        findCapableModelIn models types
          = (models.find? (fun e => types.all (typeSatisfied e.2))).map Prod.fst)
    ∧ (∀ (ps : List ProviderEntry) (types : List PartType) (pref : Option String),
        findCapableProvider ps types pref = none
          ↔ ∀ pid ∈ listConfiguredProviders ps,
              findCapableModelIn (modelsFor ps pid) types = none)
    ∧ (∀ (ps : List ProviderEntry) (types : List PartType) (p : String),
        (p ∉ listConfiguredProviders ps
          ∨ findCapableModelIn (modelsFor ps p) types = none) →
        findCapableProvider ps types (some p)
          = ((listConfiguredProviders ps).filter
              (fun pid => decide ((some p : Option String) ≠ some pid))).findSome?
              (fun pid => (findCapableModelIn (modelsFor ps pid) types).map
                (fun m => (pid, m))))
    ∧ (∀ (ps : List ProviderEntry) (types : List PartType),
        findCapableProvider ps types none
          = (listConfiguredProviders ps).findSome?
              (fun pid => (findCapableModelIn (modelsFor ps pid) types).map
                (fun m => (pid, m))))
    ∧ (findCapableProvider
        [⟨"openai", true, openaiModelTable⟩, ⟨"anthropic", true, anthropicModelTable⟩]
        [.pdf] none = some ("anthropic", "claude-opus-4-20250514")) := by
  refine ⟨?_, findCapableModelIn_eq_find, ?_, ?_, ?_, by decide⟩
  · intro ps types p m hp hm
    have hc : (listConfiguredProviders ps).contains p = true :=
      (contains_eq_true_iff_mem _ _).mpr hp
    rw [findCapableProvider, if_pos hc, hm]
  · intro ps types pref
    cases pref with
    | none =>
      rw [findCapableProvider, findOther_eq_none_iff]
      constructor
      · intro h pid hpid
        exact h pid hpid (by simp)
      · intro h pid hpid _
        exact h pid hpid
    | some p =>
      by_cases hc : (listConfiguredProviders ps).contains p = true
      · rw [findCapableProvider, if_pos hc]
        have hpmem : p ∈ listConfiguredProviders ps := (contains_eq_true_iff_mem _ _).mp hc
        cases hm : findCapableModelIn (modelsFor ps p) types with
        | some m =>
          constructor
          · intro h
            exact absurd h (by simp)
          · intro h
            have := h p hpmem
            rw [hm] at this
            exact absurd this (by simp)
        | none =>
          rw [findOther_eq_none_iff]
          constructor
          · intro h pid hpid
            by_cases hpp : pid = p
            · rw [hpp]; exact hm
            · exact h pid hpid (by simp [Ne.symm hpp])
          · intro h pid hpid _
            exact h pid hpid
      · rw [findCapableProvider, if_neg hc]
        have hpnot : p ∉ listConfiguredProviders ps := by
          intro hmem
          exact hc ((contains_eq_true_iff_mem _ _).mpr hmem)
        rw [findOther_eq_none_iff]
        constructor
        · intro h pid hpid
          have hne : p ≠ pid := by
            intro hfalse
            exact hpnot (hfalse ▸ hpid)
          exact h pid hpid (by simp [hne])
        · intro h pid hpid _
          exact h pid hpid
  · intro ps types p hyp
    by_cases hc : (listConfiguredProviders ps).contains p = true
    · rcases hyp with hnot | hm
      · exact absurd ((contains_eq_true_iff_mem _ _).mp hc) hnot
      · rw [findCapableProvider, if_pos hc, hm]
        exact findOther_eq_findSome ps types (some p) (listConfiguredProviders ps)
    · rw [findCapableProvider, if_neg hc]
      exact findOther_eq_findSome ps types (some p) (listConfiguredProviders ps)
  · intro ps types
    rw [findCapableProvider, findOther_eq_findSome]
    have : (listConfiguredProviders ps).filter
        (fun pid => decide ((none : Option String) ≠ some pid))
        = listConfiguredProviders ps := by
      apply List.filter_eq_self.mpr
      intro pid _
      simp
    rw [this]

/-- **C9 witness**: with both real adapters configured and `anthropic`
preferred, a pdf requirement routes to the preferred provider's first
pdf-capable model. -/
theorem C9_routing_witness :
    findCapableProvider (gatewayProviders true true) [.pdf] (some "anthropic")
      = some ("anthropic", "claude-opus-4-20250514") :=
  C9_routing.1 (gatewayProviders true true) [.pdf] "anthropic" "claude-opus-4-20250514"
    (by decide) (by decide)

/-! ## Round-trip fixtures and claim C7 -/

/-- Synthetic Anthropic wire response carrying the given text. -/
def synthAnthResponse (s : String) : AnthropicResponse :=
  ⟨"msg_1", [.text s], "claude-sonnet-4-20250514", some "end_turn", ⟨1, 1⟩⟩

/-- Synthetic OpenAI wire response carrying the given text. -/
def synthOAIResponse (s : String) : OpenAIResponse :=
  ⟨"chatcmpl-1", 0, "gpt-4o", [⟨0, ⟨.assistant, s⟩, "stop"⟩], ⟨1, 1, 2⟩⟩

/-- **C7.** For each adapter, transforming a canonical request holding a
single user text message yields a wire request whose sole message carries
that text unchanged, and transforming a synthetic same-provider response
carrying the same text back yields canonical content equal to the original
single text part: the text-only round trip is lossless. -/
theorem C7_text_round_trip (s : String) :
    (∃ wreq, anthTransformRequest anthropicDefaultModel
        (textOnlyReq "anthropic" "claude-sonnet-4-20250514" s) = .ok wreq
      ∧ wreq.messages = [⟨.user, .str s⟩]
      ∧ (anthTransformResponse (synthAnthResponse s) (0, 0)).content = [.text s])
    ∧ (∃ wreq, oaiTransformRequest openaiDefaultModel
        (textOnlyReq "openai" "gpt-4o" s) = .ok wreq
      ∧ wreq.messages = [⟨.user, .str s⟩]
      ∧ (oaiTransformResponse (synthOAIResponse s) (0, 0)).content = [.text s]) := by
  exact ⟨⟨_, rfl, rfl, rfl⟩, ⟨_, rfl, rfl, rfl⟩⟩

/-! ## Spec-side predicates and lemmas for the transform claims -/

def exceptIsOk {ε α : Type} : Except ε α → Bool
  | .ok _ => true
  | .error _ => false

/-- A part `AnthropicAdapter.transformContentPart` rejects: images without
vision, pdf without the pdf flag, and audio/video unconditionally. -/
def anthPartRejected (caps : ModelCapabilities) : ContentPart → Bool
  | .text _ => false
  | .image _ _ => !caps.vision
  | .pdf _ _ _ => !caps.pdf
  | .audio _ _ => true
  | .video _ _ => true

/-- A part `OpenAIAdapter.transformContentPart` rejects: images without
vision, and pdf/audio/video unconditionally. -/
def oaiPartRejected (caps : ModelCapabilities) : ContentPart → Bool
  | .text _ => false
  | .image _ _ => !caps.vision
  | .pdf _ _ _ => true
  | .audio _ _ => true
  | .video _ _ => true

/-- A message on which the Anthropic transform fails: a non-system message
with a rejected part (system messages are never transformed). -/
def anthMessageRejected (caps : ModelCapabilities) (m : Message) : Bool :=
  (!(m.role == .system)) &&
    (match m.content with
     | .str _ => false
     | .parts l => l.any (fun p => anthPartRejected caps p))

/-- A message on which the OpenAI transform fails (no system exemption). -/
def oaiMessageRejected (caps : ModelCapabilities) (m : Message) : Bool :=
  match m.content with
  | .str _ => false
  | .parts l => l.any (fun p => oaiPartRejected caps p)

theorem anthTransformContentPart_isOk (caps : ModelCapabilities) (p : ContentPart) :
    exceptIsOk (anthTransformContentPart caps p) = !anthPartRejected caps p := by
  cases p with
  | text t => rfl
  | image d mt =>
    cases hv : caps.vision <;>
      simp [anthTransformContentPart, anthPartRejected, hv, exceptIsOk]
  | pdf d pr fn =>
    cases hv : caps.pdf <;>
      simp [anthTransformContentPart, anthPartRejected, hv, exceptIsOk]
  | audio d mt => rfl
  | video d mt => rfl

theorem anthTransformContentPart_error_code (caps : ModelCapabilities) (p : ContentPart)
    (e : GatewayErrorS) (h : anthTransformContentPart caps p = .error e) :
    e.code = "TRANSFORM_ERROR" ∧ e.name = "TransformError" := by
  cases p with
  | text t => exact absurd h (by simp [anthTransformContentPart])
  | image d mt =>
    cases hv : caps.vision
    · rw [anthTransformContentPart, hv] at h
      simp only [Bool.false_eq_true, if_false, Except.error.injEq] at h
      subst h
      exact ⟨rfl, rfl⟩
    · rw [anthTransformContentPart, hv] at h
      simp at h
  | pdf d pr fn =>
    cases hv : caps.pdf
    · rw [anthTransformContentPart, hv] at h
      simp only [Bool.false_eq_true, if_false, Except.error.injEq] at h
      subst h
      exact ⟨rfl, rfl⟩
    · rw [anthTransformContentPart, hv] at h
      simp at h
  | audio d mt =>
    rw [anthTransformContentPart] at h
    injection h with h
    subst h
    exact ⟨rfl, rfl⟩
  | video d mt =>
    rw [anthTransformContentPart] at h
    injection h with h
    subst h
    exact ⟨rfl, rfl⟩

theorem oaiTransformContentPart_isOk (caps : ModelCapabilities) (p : ContentPart) :
    exceptIsOk (oaiTransformContentPart caps p) = !oaiPartRejected caps p := by
  cases p with
  | text t => rfl
  | image d mt =>
    cases hv : caps.vision <;>
      simp [oaiTransformContentPart, oaiPartRejected, hv, exceptIsOk]
  | pdf d pr fn => rfl
  | audio d mt => rfl
  | video d mt => rfl

theorem oaiTransformContentPart_error_code (caps : ModelCapabilities) (p : ContentPart)
    (e : GatewayErrorS) (h : oaiTransformContentPart caps p = .error e) :
    e.code = "TRANSFORM_ERROR" ∧ e.name = "TransformError" := by
  cases p with
  | text t => exact absurd h (by simp [oaiTransformContentPart])
  | image d mt =>
    cases hv : caps.vision
    · rw [oaiTransformContentPart, hv] at h
      simp only [Bool.false_eq_true, if_false, Except.error.injEq] at h
      subst h
      exact ⟨rfl, rfl⟩
    · rw [oaiTransformContentPart, hv] at h
      simp at h
  | pdf d pr fn =>
    rw [oaiTransformContentPart] at h
    injection h with h
    subst h
    exact ⟨rfl, rfl⟩
  | audio d mt =>
    rw [oaiTransformContentPart] at h
    injection h with h
    subst h
    exact ⟨rfl, rfl⟩
  | video d mt =>
    rw [oaiTransformContentPart] at h
    injection h with h
    subst h
    exact ⟨rfl, rfl⟩

theorem anthTransformParts_ok_length (caps : ModelCapabilities) :
    ∀ (l : List ContentPart) (bs : List AnthBlock),
      anthTransformParts caps l = .ok bs → bs.length = l.length := by
  intro l
  induction l with
  | nil =>
    intro bs h
    rw [anthTransformParts] at h
    injection h with h
    rw [← h]
    rfl
  | cons p rest ih =>
    intro bs h
    rw [anthTransformParts] at h
    cases hp : anthTransformContentPart caps p with
    | error e => rw [hp] at h; simp [Bind.bind, Except.bind] at h
    | ok b =>
      rw [hp] at h
      cases hr : anthTransformParts caps rest with
      | error e => rw [hr] at h; simp [Bind.bind, Except.bind] at h
      | ok bs2 =>
        rw [hr] at h
        simp only [Bind.bind, Except.bind, Except.ok.injEq] at h
        rw [← h]
        simp [ih bs2 hr]

theorem anthTransformParts_isOk (caps : ModelCapabilities) :
    ∀ (l : List ContentPart),
      exceptIsOk (anthTransformParts caps l) = l.all (fun p => !anthPartRejected caps p) := by
  intro l
  induction l with
  | nil => rfl
  | cons p rest ih =>
    rw [anthTransformParts, List.all_cons]
    cases hp : anthTransformContentPart caps p with
    | error e =>
      have := anthTransformContentPart_isOk caps p
      rw [hp] at this
      simp only [exceptIsOk] at this
      simp [Bind.bind, Except.bind, exceptIsOk, ← this]
    | ok b =>
      have := anthTransformContentPart_isOk caps p
      rw [hp] at this
      simp only [exceptIsOk] at this
      cases hr : anthTransformParts caps rest with
      | error e =>
        rw [hr] at ih
        simp [Bind.bind, Except.bind, exceptIsOk, ← this, ← ih, hr]
      | ok bs2 =>
        rw [hr] at ih
        simp [Bind.bind, Except.bind, exceptIsOk, ← this, ← ih, hr]

theorem anthTransformParts_error_code (caps : ModelCapabilities) :
    ∀ (l : List ContentPart) (e : GatewayErrorS),
      anthTransformParts caps l = .error e →
      e.code = "TRANSFORM_ERROR" ∧ e.name = "TransformError" := by
  intro l
  induction l with
  | nil => intro e h; rw [anthTransformParts] at h; exact absurd h (by simp)
  | cons p rest ih =>
    intro e h
    rw [anthTransformParts] at h
    cases hp : anthTransformContentPart caps p with
    | error e2 =>
      rw [hp] at h
      simp only [Bind.bind, Except.bind, Except.error.injEq] at h
      exact h ▸ anthTransformContentPart_error_code caps p e2 hp
    | ok b =>
      rw [hp] at h
      cases hr : anthTransformParts caps rest with
      | error e2 =>
        rw [hr] at h
        simp only [Bind.bind, Except.bind, Except.error.injEq] at h
        exact h ▸ ih e2 hr
      | ok bs2 =>
        rw [hr] at h
        simp [Bind.bind, Except.bind] at h

theorem oaiTransformParts_ok_length (caps : ModelCapabilities) :
    ∀ (l : List ContentPart) (bs : List OAIContent),
      oaiTransformParts caps l = .ok bs → bs.length = l.length := by
  intro l
  induction l with
  | nil =>
    intro bs h
    rw [oaiTransformParts] at h
    injection h with h
    rw [← h]
    rfl
  | cons p rest ih =>
    intro bs h
    rw [oaiTransformParts] at h
    cases hp : oaiTransformContentPart caps p with
    | error e => rw [hp] at h; simp [Bind.bind, Except.bind] at h
    | ok b =>
      rw [hp] at h
      cases hr : oaiTransformParts caps rest with
      | error e => rw [hr] at h; simp [Bind.bind, Except.bind] at h
      | ok bs2 =>
        rw [hr] at h
        simp only [Bind.bind, Except.bind, Except.ok.injEq] at h
        rw [← h]
        simp [ih bs2 hr]

theorem oaiTransformParts_isOk (caps : ModelCapabilities) :
    ∀ (l : List ContentPart),
      exceptIsOk (oaiTransformParts caps l) = l.all (fun p => !oaiPartRejected caps p) := by
  intro l
  induction l with
  | nil => rfl
  | cons p rest ih =>
    rw [oaiTransformParts, List.all_cons]
    cases hp : oaiTransformContentPart caps p with
    | error e =>
      have := oaiTransformContentPart_isOk caps p
      rw [hp] at this
      simp only [exceptIsOk] at this
      simp [Bind.bind, Except.bind, exceptIsOk, ← this]
    | ok b =>
      have := oaiTransformContentPart_isOk caps p
      rw [hp] at this
      simp only [exceptIsOk] at this
      cases hr : oaiTransformParts caps rest with
      | error e =>
        rw [hr] at ih
        simp [Bind.bind, Except.bind, exceptIsOk, ← this, ← ih, hr]
      | ok bs2 =>
        rw [hr] at ih
        simp [Bind.bind, Except.bind, exceptIsOk, ← this, ← ih, hr]

theorem oaiTransformParts_error_code (caps : ModelCapabilities) :
    ∀ (l : List ContentPart) (e : GatewayErrorS),
      oaiTransformParts caps l = .error e →
      e.code = "TRANSFORM_ERROR" ∧ e.name = "TransformError" := by
  intro l
  induction l with
  | nil => intro e h; rw [oaiTransformParts] at h; exact absurd h (by simp)
  | cons p rest ih =>
    intro e h
    rw [oaiTransformParts] at h
    cases hp : oaiTransformContentPart caps p with
    | error e2 =>
      rw [hp] at h
      simp only [Bind.bind, Except.bind, Except.error.injEq] at h
      exact h ▸ oaiTransformContentPart_error_code caps p e2 hp
    | ok b =>
      rw [hp] at h
      cases hr : oaiTransformParts caps rest with
      | error e2 =>
        rw [hr] at h
        simp only [Bind.bind, Except.bind, Except.error.injEq] at h
        exact h ▸ ih e2 hr
      | ok bs2 =>
        rw [hr] at h
        simp [Bind.bind, Except.bind] at h

theorem not_any_eq_all_not {α : Type} (l : List α) (f : α → Bool) :
    (!(l.any f)) = l.all (fun a => !(f a)) := by
  induction l with
  | nil => rfl
  | cons a rest ih => simp [List.any_cons, List.all_cons, Bool.not_or, ih]

theorem anthMessageRejected_not (caps : ModelCapabilities) (m : Message) :
    (!anthMessageRejected caps m)
      = ((m.role == MessageRole.system) ||
         (match m.content with
          | .str _ => true
          | .parts l => l.all (fun p => !anthPartRejected caps p))) := by
  unfold anthMessageRejected
  cases hs : (m.role == MessageRole.system) with
  | true => cases hc : m.content <;> simp [hc]
  | false =>
    cases hc : m.content with
    | str s => simp [hc]
    | parts l => simp [hc, ← not_any_eq_all_not]

theorem oaiMessageRejected_not (caps : ModelCapabilities) (m : Message) :
    (!oaiMessageRejected caps m)
      = (match m.content with
         | .str _ => true
         | .parts l => l.all (fun p => !oaiPartRejected caps p)) := by
  unfold oaiMessageRejected
  cases hc : m.content with
  | str s => simp [hc]
  | parts l => simp [hc, ← not_any_eq_all_not]

theorem anthTransformMessage_isOk (caps : ModelCapabilities) (m : Message) :
    exceptIsOk (anthTransformMessage caps m)
      = (match m.content with
         | .str _ => true
         | .parts l => l.all (fun p => !anthPartRejected caps p)) := by
  cases m with
  | mk role content =>
    cases content with
    | str s => rfl
    | parts l =>
      have hp := anthTransformParts_isOk caps l
      cases hr : anthTransformParts caps l with
      | error e =>
        rw [hr] at hp
        simp only [exceptIsOk] at hp
        simp [anthTransformMessage, Bind.bind, Except.bind, hr, exceptIsOk, ← hp]
      | ok bs =>
        rw [hr] at hp
        simp only [exceptIsOk] at hp
        simp [anthTransformMessage, Bind.bind, Except.bind, hr, exceptIsOk, ← hp]

theorem anthTransformMessage_error_code (caps : ModelCapabilities) (m : Message)
    (e : GatewayErrorS) (h : anthTransformMessage caps m = .error e) :
    e.code = "TRANSFORM_ERROR" ∧ e.name = "TransformError" := by
  cases m with
  | mk role content =>
    cases content with
    | str s => exact absurd h (by simp [anthTransformMessage])
    | parts l =>
      simp only [anthTransformMessage] at h
      cases hr : anthTransformParts caps l with
      | error e2 =>
        rw [hr] at h
        simp only [Bind.bind, Except.bind, Except.error.injEq] at h
        exact h ▸ anthTransformParts_error_code caps l e2 hr
      | ok bs =>
        rw [hr] at h
        simp [Bind.bind, Except.bind] at h

theorem anthProcessMessages_isOk (caps : ModelCapabilities) :
    ∀ (msgs : List Message) (sys : Option String),
      exceptIsOk (anthProcessMessages caps msgs sys)
        = msgs.all (fun m => !anthMessageRejected caps m) := by
  intro msgs
  induction msgs with
  | nil => intro sys; rfl
  | cons m rest ih =>
    intro sys
    rw [anthProcessMessages, List.all_cons, anthMessageRejected_not caps m]
    cases hs : (m.role == MessageRole.system) with
    | true =>
      cases hc : m.content with
      | str s => simp [hs, hc, ih]
      | parts l => simp [hs, hc, ih]
    | false =>
      have hmsg := anthTransformMessage_isOk caps m
      cases hm : anthTransformMessage caps m with
      | error e =>
        rw [hm] at hmsg
        simp only [exceptIsOk] at hmsg
        simp [hs, hm, Bind.bind, Except.bind, exceptIsOk, ← hmsg]
      | ok am =>
        rw [hm] at hmsg
        simp only [exceptIsOk] at hmsg
        cases hp : anthProcessMessages caps rest sys with
        | error e =>
          have hrest := ih sys
          rw [hp] at hrest
          simp only [exceptIsOk] at hrest
          simp [hs, hm, hp, Bind.bind, Except.bind, exceptIsOk, ← hmsg, ← hrest]
        | ok res =>
          have hrest := ih sys
          rw [hp] at hrest
          simp only [exceptIsOk] at hrest
          simp [hs, hm, hp, Bind.bind, Except.bind, exceptIsOk, ← hmsg, ← hrest]

theorem anthProcessMessages_error_code (caps : ModelCapabilities) :
    ∀ (msgs : List Message) (sys : Option String) (e : GatewayErrorS),
      anthProcessMessages caps msgs sys = .error e →
      e.code = "TRANSFORM_ERROR" ∧ e.name = "TransformError" := by
  intro msgs
  induction msgs with
  | nil => intro sys e h; exact absurd h (by simp [anthProcessMessages])
  | cons m rest ih =>
    intro sys e h
    rw [anthProcessMessages] at h
    cases hs : (m.role == MessageRole.system) with
    | true =>
      rw [hs] at h
      simp only [if_true] at h
      cases hc : m.content with
      | str s =>
        rw [hc] at h
        exact ih _ e h
      | parts l =>
        rw [hc] at h
        exact ih _ e h
    | false =>
      rw [hs] at h
      simp only [Bool.false_eq_true, if_false] at h
      cases hm : anthTransformMessage caps m with
      | error e2 =>
        rw [hm] at h
        simp only [Bind.bind, Except.bind, Except.error.injEq] at h
        exact h ▸ anthTransformMessage_error_code caps m e2 hm
      | ok am =>
        rw [hm] at h
        cases hp : anthProcessMessages caps rest sys with
        | error e2 =>
          rw [hp] at h
          simp only [Bind.bind, Except.bind, Except.error.injEq] at h
          exact h ▸ ih sys e2 hp
        | ok res =>
          rw [hp] at h
          simp [Bind.bind, Except.bind] at h

theorem anthTransformRequest_isOk (d : String) (req : GatewayRequest) :
    exceptIsOk (anthTransformRequest d req)
      = req.messages.all
          (fun m => !anthMessageRejected (anthropicGetModelCapabilities req.model) m) := by
  have hp := anthProcessMessages_isOk (anthropicGetModelCapabilities req.model)
    req.messages req.system
  cases hr : anthProcessMessages (anthropicGetModelCapabilities req.model)
      req.messages req.system with
  | error e =>
    rw [hr] at hp
    simp only [exceptIsOk] at hp
    simp [anthTransformRequest, hr, exceptIsOk, ← hp]
  | ok res =>
    rw [hr] at hp
    simp only [exceptIsOk] at hp
    simp [anthTransformRequest, hr, exceptIsOk, ← hp]

theorem anthTransformRequest_error_code (d : String) (req : GatewayRequest)
    (e : GatewayErrorS) (h : anthTransformRequest d req = .error e) :
    e.code = "TRANSFORM_ERROR" ∧ e.name = "TransformError" := by
  rw [anthTransformRequest] at h
  cases hr : anthProcessMessages (anthropicGetModelCapabilities req.model)
      req.messages req.system with
  | error e2 =>
    rw [hr] at h
    simp only [Except.error.injEq] at h
    exact h ▸ anthProcessMessages_error_code _ req.messages req.system e2 hr
  | ok res =>
    rw [hr] at h
    simp at h

theorem oaiTransformMessage_isOk (caps : ModelCapabilities) (m : Message) :
    exceptIsOk (oaiTransformMessage caps m)
      = (match m.content with
         | .str _ => true
         | .parts l => l.all (fun p => !oaiPartRejected caps p)) := by
  cases m with
  | mk role content =>
    cases content with
    | str s => rfl
    | parts l =>
      have hp := oaiTransformParts_isOk caps l
      cases hr : oaiTransformParts caps l with
      | error e =>
        rw [hr] at hp
        simp only [exceptIsOk] at hp
        simp [oaiTransformMessage, Bind.bind, Except.bind, hr, exceptIsOk, ← hp]
      | ok bs =>
        rw [hr] at hp
        simp only [exceptIsOk] at hp
        simp [oaiTransformMessage, Bind.bind, Except.bind, hr, exceptIsOk, ← hp]

theorem oaiTransformMessage_error_code (caps : ModelCapabilities) (m : Message)
    (e : GatewayErrorS) (h : oaiTransformMessage caps m = .error e) :
    e.code = "TRANSFORM_ERROR" ∧ e.name = "TransformError" := by
  cases m with
  | mk role content =>
    cases content with
    | str s => exact absurd h (by simp [oaiTransformMessage])
    | parts l =>
      simp only [oaiTransformMessage] at h
      cases hr : oaiTransformParts caps l with
      | error e2 =>
        rw [hr] at h
        simp only [Bind.bind, Except.bind, Except.error.injEq] at h
        exact h ▸ oaiTransformParts_error_code caps l e2 hr
      | ok bs =>
        rw [hr] at h
        simp [Bind.bind, Except.bind] at h

theorem oaiProcessMessages_isOk (caps : ModelCapabilities) :
    ∀ (msgs : List Message),
      exceptIsOk (oaiProcessMessages caps msgs)
        = msgs.all (fun m => !oaiMessageRejected caps m) := by
  intro msgs
  induction msgs with
  | nil => rfl
  | cons m rest ih =>
    rw [oaiProcessMessages, List.all_cons, oaiMessageRejected_not caps m]
    have hmsg := oaiTransformMessage_isOk caps m
    cases hm : oaiTransformMessage caps m with
    | error e =>
      rw [hm] at hmsg
      simp only [exceptIsOk] at hmsg
      simp [hm, Bind.bind, Except.bind, exceptIsOk, ← hmsg]
    | ok om =>
      rw [hm] at hmsg
      simp only [exceptIsOk] at hmsg
      cases hp : oaiProcessMessages caps rest with
      | error e =>
        rw [hp] at ih
        simp only [exceptIsOk] at ih
        simp [hm, hp, Bind.bind, Except.bind, exceptIsOk, ← hmsg, ← ih]
      | ok res =>
        rw [hp] at ih
        simp only [exceptIsOk] at ih
        simp [hm, hp, Bind.bind, Except.bind, exceptIsOk, ← hmsg, ← ih]

theorem oaiProcessMessages_error_code (caps : ModelCapabilities) :
    ∀ (msgs : List Message) (e : GatewayErrorS),
      oaiProcessMessages caps msgs = .error e →
      e.code = "TRANSFORM_ERROR" ∧ e.name = "TransformError" := by
  intro msgs
  induction msgs with
  | nil => intro e h; exact absurd h (by simp [oaiProcessMessages])
  | cons m rest ih =>
    intro e h
    rw [oaiProcessMessages] at h
    cases hm : oaiTransformMessage caps m with
    | error e2 =>
      rw [hm] at h
      simp only [Bind.bind, Except.bind, Except.error.injEq] at h
      exact h ▸ oaiTransformMessage_error_code caps m e2 hm
    | ok om =>
      rw [hm] at h
      cases hp : oaiProcessMessages caps rest with
      | error e2 =>
        rw [hp] at h
        simp only [Bind.bind, Except.bind, Except.error.injEq] at h
        exact h ▸ ih e2 hp
      | ok res =>
        rw [hp] at h
        simp [Bind.bind, Except.bind] at h

theorem oaiTransformRequest_isOk (d : String) (req : GatewayRequest) :
    exceptIsOk (oaiTransformRequest d req)
      = req.messages.all
          (fun m => !oaiMessageRejected (openaiGetModelCapabilities req.model) m) := by
  have hp := oaiProcessMessages_isOk (openaiGetModelCapabilities req.model) req.messages
  cases hr : oaiProcessMessages (openaiGetModelCapabilities req.model) req.messages with
  | error e =>
    rw [hr] at hp
    simp only [exceptIsOk] at hp
    simp [oaiTransformRequest, hr, exceptIsOk, ← hp]
  | ok res =>
    rw [hr] at hp
    simp only [exceptIsOk] at hp
    simp [oaiTransformRequest, hr, exceptIsOk, ← hp]

theorem oaiTransformRequest_error_code (d : String) (req : GatewayRequest)
    (e : GatewayErrorS) (h : oaiTransformRequest d req = .error e) :
    e.code = "TRANSFORM_ERROR" ∧ e.name = "TransformError" := by
  rw [oaiTransformRequest] at h
  cases hr : oaiProcessMessages (openaiGetModelCapabilities req.model) req.messages with
  | error e2 =>
    rw [hr] at h
    simp only [Except.error.injEq] at h
    exact h ▸ oaiProcessMessages_error_code _ req.messages e2 hr
  | ok res =>
    rw [hr] at h
    simp at h

/-- Fixture: a system-role message whose content is an array holding an
unsupported pdf part, against a `pdf = false` model. -/
def reqSysPdf : GatewayRequest :=
  ⟨"anthropic", "claude-3-opus-20240229",
    [⟨.system, .parts [.pdf "JVBERi0=" none none]⟩], none, none, none, none⟩

/-- **C5 counterexample.** The pdf part is unsupported by
`claude-3-opus-20240229` (`pdf = false`), yet because it sits in a
system-role message with array content, `AnthropicAdapter.transformRequest`
succeeds — and its output contains no message at all: the part was silently
dropped, not rejected with a `TransformError`. -/
theorem C5_counterexample :
    anthPartRejected (anthropicGetModelCapabilities "claude-3-opus-20240229")
        (.pdf "JVBERi0=" none none) = true
    ∧ anthTransformRequest anthropicDefaultModel reqSysPdf
        = .ok ⟨"claude-3-opus-20240229", 8192, [], none, none, none⟩ :=
  ⟨by decide, by rfl⟩

/-- **C5 (amended).** Transformation is all-or-error over the messages it
actually walks: per-part transformation never drops a part (on success the
block list has exactly one block per part, for both adapters);
`transformRequest` succeeds iff every walked message is accepted — for
OpenAI that is every message, while for Anthropic system-role messages are
exempt because string-content ones are folded into the system prompt and
array-content ones are skipped wholesale (the silent drop shown by the
counterexample); every transformation failure carries
`code = TRANSFORM_ERROR` (a `TransformError`). -/
theorem C5_transform_failures :
    (∀ (caps : ModelCapabilities) (l : List ContentPart) (bs : List AnthBlock),
        anthTransformParts caps l = .ok bs → bs.length = l.length)
    ∧ (∀ (caps : ModelCapabilities) (l : List ContentPart) (bs : List OAIContent),
        oaiTransformParts caps l = .ok bs → bs.length = l.length)
    ∧ (∀ (d : String) (req : GatewayRequest),
        exceptIsOk (anthTransformRequest d req)
          = req.messages.all
              (fun m => !anthMessageRejected (anthropicGetModelCapabilities req.model) m))
    ∧ (∀ (d : String) (req : GatewayRequest) (e : GatewayErrorS),
        anthTransformRequest d req = .error e →
        e.code = "TRANSFORM_ERROR" ∧ e.name = "TransformError")
    ∧ (∀ (d : String) (req : GatewayRequest),
        exceptIsOk (oaiTransformRequest d req)
          = req.messages.all
              (fun m => !oaiMessageRejected (openaiGetModelCapabilities req.model) m))
    ∧ (∀ (d : String) (req : GatewayRequest) (e : GatewayErrorS),
        oaiTransformRequest d req = .error e →
        e.code = "TRANSFORM_ERROR" ∧ e.name = "TransformError") :=
  ⟨anthTransformParts_ok_length, oaiTransformParts_ok_length, anthTransformRequest_isOk,
   anthTransformRequest_error_code, oaiTransformRequest_isOk, oaiTransformRequest_error_code⟩

/-- **C5 witness**: the no-drop clause at a concrete two-part list — a text
part and an image part transform into exactly two blocks. -/
theorem C5_transform_failures_witness :
    ([AnthBlock.text "hello", AnthBlock.image "image/png" "iVBOR"] : List AnthBlock).length
      = ([ContentPart.text "hello", ContentPart.image "iVBOR" "image/png"] : List ContentPart).length :=
  C5_transform_failures.1 CLAUDE_3_CAPABILITIES
    [ContentPart.text "hello", ContentPart.image "iVBOR" "image/png"]
    [AnthBlock.text "hello", AnthBlock.image "image/png" "iVBOR"] (by decide)

/-! ## Spec-side functions and lemmas for the streaming claims -/

/-- Concatenation of the texts of all yielded `text_delta` chunks. -/
def textOfChunks : List StreamChunk → String
  | [] => ""
  | c :: rest =>
    (if c.type == "text_delta" then
      (match c.text with | some t => t | none => "")
    else "") ++ textOfChunks rest

/-- Concatenated text of a canonical content list. -/
def concatTextParts : List ContentPart → String
  | [] => ""
  | .text t :: rest => t ++ concatTextParts rest
  | .image _ _ :: rest => concatTextParts rest
  | .pdf _ _ _ :: rest => concatTextParts rest
  | .audio _ _ :: rest => concatTextParts rest
  | .video _ _ :: rest => concatTextParts rest

def respText (r : GatewayResponse) : String := concatTextParts r.content

theorem textOfChunks_append (a b : List StreamChunk) :
    textOfChunks (a ++ b) = textOfChunks a ++ textOfChunks b := by
  induction a with
  | nil => simp [textOfChunks, String.empty_append]
  | cons c rest ih =>
    rw [List.cons_append, textOfChunks, textOfChunks, ih, String.append_assoc]

theorem runSSE_append {σ ev : Type} (handle : σ → ev → σ × List StreamChunk) (st : σ)
    (a b : List (SSELine ev)) :
    runSSE handle st (a ++ b)
      = ((runSSE handle (runSSE handle st a).1 b).1,
         (runSSE handle st a).2 ++ (runSSE handle (runSSE handle st a).1 b).2) := by
  induction a generalizing st with
  | nil => simp [runSSE]
  | cons l ls ih =>
    cases l with
    | dataEvent e =>
      have h := ih ((handle st e).1)
      simp only [List.cons_append, runSSE, List.append_eq]
      rw [h]
      simp [List.append_assoc]
    | dataMalformed =>
      simp only [List.cons_append, runSSE, List.append_eq]
      exact ih st
    | dataDone =>
      simp only [List.cons_append, runSSE, List.append_eq]
      exact ih st
    | nonData =>
      simp only [List.cons_append, runSSE, List.append_eq]
      exact ih st

/-- A run over pure text-delta lines: state untouched, one chunk per delta. -/
theorem anthRunSSE_textDeltas (ds : List String) (st : AnthStreamState) :
    runSSE anthHandleEvent st (ds.map (fun t => SSELine.dataEvent (AnthEvent.textDelta t)))
      = (st, ds.map chunkTextDelta) := by
  induction ds generalizing st with
  | nil => rfl
  | cons t rest ih =>
    have hstep : anthHandleEvent st (AnthEvent.textDelta t) = (st, [chunkTextDelta t]) := rfl
    simp only [List.map_cons, runSSE, hstep, ih]
    simp

/-- One OpenAI handler step grows `fullContent` by exactly the text of the
chunks it yields. -/
theorem oaiHandleEvent_spec (st : OAIStreamState) (e : OAIStreamEvent) :
    (oaiHandleEvent st e).1.fullContent
      = st.fullContent ++ textOfChunks (oaiHandleEvent st e).2 := by
  cases e with
  | mk ec ef =>
    unfold oaiHandleEvent
    cases ec with
    | none =>
      cases ef with
      | none => simp [textOfChunks, String.append_empty]
      | some f =>
        by_cases hf : (f != "") = true <;>
          simp [hf, textOfChunks, String.append_empty]
    | some c =>
      by_cases hb : (c != "") = true
      · cases ef with
        | none =>
          simp [hb, textOfChunks, chunkTextDelta, String.append_empty]
        | some f =>
          by_cases hf : (f != "") = true <;>
            simp [hb, hf, textOfChunks, chunkTextDelta, String.append_empty]
      · cases ef with
        | none => simp [hb, textOfChunks, String.append_empty]
        | some f =>
          by_cases hf : (f != "") = true <;>
            simp [hb, hf, textOfChunks, String.append_empty]

/-- OpenAI read-loop invariant: the accumulated `fullContent` grows by
exactly the concatenation of the yielded `text_delta` texts. -/
theorem oaiRunSSE_fullContent (lines : List (SSELine OAIStreamEvent)) :
    ∀ st : OAIStreamState,
      (runSSE oaiHandleEvent st lines).1.fullContent
        = st.fullContent ++ textOfChunks (runSSE oaiHandleEvent st lines).2 := by
  induction lines with
  | nil => intro st; simp [runSSE, textOfChunks, String.append_empty]
  | cons l ls ih =>
    intro st
    cases l with
    | dataEvent e =>
      simp only [runSSE]
      rw [textOfChunks_append, ih, oaiHandleEvent_spec st e, String.append_assoc]
    | dataMalformed =>
      simp only [runSSE]
      rw [textOfChunks_append, ih]
      simp [textOfChunks, String.empty_append]
    | dataDone =>
      simp only [runSSE]
      rw [textOfChunks_append, ih]
      simp [textOfChunks, String.empty_append]
    | nonData =>
      simp only [runSSE]
      rw [textOfChunks_append, ih]
      simp [textOfChunks, String.empty_append]

/-- Every Anthropic event handler other than `message_start` preserves an
absent `fullResponse`. -/
theorem anthRunSSE_no_start (lines : List (SSELine AnthEvent))
    (h : ∀ l ∈ lines, ∀ msg, l ≠ SSELine.dataEvent (AnthEvent.messageStart msg)) :
    ∀ st : AnthStreamState, st.fullResponse = none →
      (runSSE anthHandleEvent st lines).1.fullResponse = none := by
  induction lines with
  | nil => intro st hst; exact hst
  | cons l ls ih =>
    intro st hst
    have hls : ∀ l2 ∈ ls, ∀ msg, l2 ≠ SSELine.dataEvent (AnthEvent.messageStart msg) :=
      fun l2 h2 => h l2 (List.mem_cons_of_mem _ h2)
    cases l with
    | dataEvent e =>
      cases e with
      | messageStart msg =>
        exact absurd rfl (h _ (List.mem_cons_self _ _) msg)
      | contentBlockStart => exact ih hls st hst
      | textDelta t => exact ih hls st hst
      | otherDelta => exact ih hls st hst
      | contentBlockStop => exact ih hls st hst
      | messageDelta outTok stopR =>
        simp only [runSSE]
        apply ih hls
        cases st with
        | mk fr it ot =>
          have hfr : fr = none := hst
          subst hfr
          cases outTok <;> cases stopR <;> rfl
      | messageStop => exact ih hls st hst
      | unknownEvent => exact ih hls st hst
    | dataMalformed => exact ih hls st hst
    | dataDone => exact ih hls st hst
    | nonData => exact ih hls st hst

theorem oaiSendStream_body (d : String) (req : GatewayRequest) (wreq : OpenAIRequest)
    (hw : oaiTransformRequest d { req with stream := some true } = .ok wreq)
    (lines : List (SSELine OAIStreamEvent)) (st en : Nat) :
    oaiSendStream true d req 200 (some lines) st en
      = (chunkOf "message_start" ::
          (runSSE oaiHandleEvent ⟨"", "stop"⟩ lines).2 ++ [chunkOf "message_stop"],
         .ok (oaiTransformResponse
           { id := "stream-" ++ toString st
             created := st / 1000
             model := if req.model == "" then d else req.model
             choices := [⟨0, ⟨.assistant, (runSSE oaiHandleEvent ⟨"", "stop"⟩ lines).1.fullContent⟩,
               (runSSE oaiHandleEvent ⟨"", "stop"⟩ lines).1.finishReason⟩]
             usage := ⟨0, 0, 0⟩ } (st, en))) := by
  unfold oaiSendStream
  rw [hw]
  simp

theorem oaiSendStream_noBody (d : String) (req : GatewayRequest) (wreq : OpenAIRequest)
    (hw : oaiTransformRequest d { req with stream := some true } = .ok wreq) (st en : Nat) :
    oaiSendStream true d req 200 none st en
      = ([], .error (mkGatewayError "No response body for streaming" "STREAM_ERROR"
          (some "openai") none)) := by
  unfold oaiSendStream
  rw [hw]
  simp

theorem anthSendStream_body (d : String) (req : GatewayRequest) (wreq : AnthropicRequest)
    (hw : anthTransformRequest d { req with stream := some true } = .ok wreq)
    (lines : List (SSELine AnthEvent)) (st en : Nat) :
    anthSendStream true d req 200 (some lines) st en
      = (match (runSSE anthHandleEvent anthInitState lines).1.fullResponse with
         | some r =>
           ((runSSE anthHandleEvent anthInitState lines).2,
            .ok (anthTransformResponse
              { r with usage := ⟨(runSSE anthHandleEvent anthInitState lines).1.inputTokens,
                  (runSSE anthHandleEvent anthInitState lines).1.outputTokens⟩ } (st, en)))
         | none =>
           ((runSSE anthHandleEvent anthInitState lines).2,
            .error (mkGatewayError "Stream ended without complete response" "STREAM_ERROR"
              (some "anthropic") none))) := by
  unfold anthSendStream
  rw [hw]
  simp

theorem anthSendStream_noBody (d : String) (req : GatewayRequest) (wreq : AnthropicRequest)
    (hw : anthTransformRequest d { req with stream := some true } = .ok wreq) (st en : Nat) :
    anthSendStream true d req 200 none st en
      = ([], .error (mkGatewayError "No response body for streaming" "STREAM_ERROR"
          (some "anthropic") none)) := by
  unfold anthSendStream
  rw [hw]
  simp

/-- The wire shape of the stream-reconstruction scenario: a `message_start`
event, then text deltas, then a usage-bearing `message_delta` and the
terminal `message_stop`. -/
def anthStreamLines (msg : AnthropicResponse) (ds : List String) (o : Nat) :
    List (SSELine AnthEvent) :=
  [SSELine.dataEvent (AnthEvent.messageStart msg)]
    ++ ds.map (fun t => SSELine.dataEvent (AnthEvent.textDelta t))
    ++ [SSELine.dataEvent (AnthEvent.messageDelta (some o) (some "end_turn")),
        SSELine.dataEvent AnthEvent.messageStop]

theorem anthRunSSE_streamLines (msg : AnthropicResponse) (ds : List String) (o : Nat)
    (ho : o ≠ 0) :
    runSSE anthHandleEvent anthInitState (anthStreamLines msg ds o)
      = (⟨some { msg with stop_reason := some "end_turn" }, msg.usage.input_tokens, o⟩,
         chunkOf "message_start" ::
           (ds.map chunkTextDelta ++ [chunkMessageStop ⟨msg.usage.input_tokens, o⟩])) := by
  have hin : (if (msg.usage.input_tokens != 0) = true
      then msg.usage.input_tokens else 0) = msg.usage.input_tokens := by
    by_cases h : msg.usage.input_tokens = 0 <;> simp [h]
  have hout : (if (o != 0) = true then o else 0) = o := by simp [ho]
  have hA : runSSE anthHandleEvent anthInitState
      [SSELine.dataEvent (AnthEvent.messageStart msg)]
      = (⟨some msg, if (msg.usage.input_tokens != 0) = true
          then msg.usage.input_tokens else 0, 0⟩, [chunkOf "message_start"]) := rfl
  rw [hin] at hA
  have hB := anthRunSSE_textDeltas ds ⟨some msg, msg.usage.input_tokens, 0⟩
  have hC : runSSE anthHandleEvent ⟨some msg, msg.usage.input_tokens, 0⟩
      [SSELine.dataEvent (AnthEvent.messageDelta (some o) (some "end_turn")),
       SSELine.dataEvent AnthEvent.messageStop]
      = (⟨some { msg with stop_reason := some "end_turn" }, msg.usage.input_tokens,
          if (o != 0) = true then o else 0⟩,
         [chunkMessageStop ⟨msg.usage.input_tokens, if (o != 0) = true then o else 0⟩]) := rfl
  rw [hout] at hC
  unfold anthStreamLines
  rw [runSSE_append anthHandleEvent anthInitState
    ([SSELine.dataEvent (AnthEvent.messageStart msg)]
      ++ ds.map (fun t => SSELine.dataEvent (AnthEvent.textDelta t)))
    [SSELine.dataEvent (AnthEvent.messageDelta (some o) (some "end_turn")),
     SSELine.dataEvent AnthEvent.messageStop]]
  rw [runSSE_append anthHandleEvent anthInitState
    [SSELine.dataEvent (AnthEvent.messageStart msg)]
    (ds.map (fun t => SSELine.dataEvent (AnthEvent.textDelta t)))]
  rw [hA]
  simp only [hB]
  rw [hC]
  simp

/-- **C3 (amended).** OpenAI: consuming any SSE body yields a terminal
response whose concatenated text equals the concatenation of all yielded
`text_delta` texts — but with usage hard-coded to zero, never taken from
the stream.  Anthropic: consuming a `message_start`, text deltas, a
usage-bearing `message_delta` and `message_stop` yields a terminal
response whose usage comes from `message_start.usage.input_tokens` and the
`message_delta` output tokens, but whose content is the `message_start`
message's content — the yielded deltas are *not* reflected in it. -/
theorem C3_stream_reconstruction :
    (∀ (d : String) (req : GatewayRequest) (lines : List (SSELine OAIStreamEvent))
        (st en : Nat) (wreq : OpenAIRequest),
        oaiTransformRequest d { req with stream := some true } = .ok wreq →
        ∃ r, (oaiSendStream true d req 200 (some lines) st en).2 = .ok r
          ∧ respText r = textOfChunks (oaiSendStream true d req 200 (some lines) st en).1
          ∧ r.usage = ⟨0, 0⟩)
    ∧ (∀ (d : String) (req : GatewayRequest) (msg : AnthropicResponse) (ds : List String)
        (o st en : Nat) (wreq : AnthropicRequest),
        anthTransformRequest d { req with stream := some true } = .ok wreq →
        o ≠ 0 →
        anthSendStream true d req 200 (some (anthStreamLines msg ds o)) st en
          = (chunkOf "message_start" ::
              (ds.map chunkTextDelta ++ [chunkMessageStop ⟨msg.usage.input_tokens, o⟩]),
             .ok (anthTransformResponse
               { msg with stop_reason := some "end_turn", usage := ⟨msg.usage.input_tokens, o⟩ }
               (st, en)))) := by
  constructor
  · intro d req lines st en wreq hw
    have hres := oaiSendStream_body d req wreq hw lines st en
    refine ⟨oaiTransformResponse
      { id := "stream-" ++ toString st
        created := st / 1000
        model := if req.model == "" then d else req.model
        choices := [⟨0, ⟨.assistant, (runSSE oaiHandleEvent ⟨"", "stop"⟩ lines).1.fullContent⟩,
          (runSSE oaiHandleEvent ⟨"", "stop"⟩ lines).1.finishReason⟩]
        usage := ⟨0, 0, 0⟩ } (st, en), ?_, ?_, ?_⟩
    · rw [hres]
    · rw [hres]
      have hfc := oaiRunSSE_fullContent lines ⟨"", "stop"⟩
      rw [show (chunkOf "message_start" ::
            (runSSE oaiHandleEvent ⟨"", "stop"⟩ lines).2 ++ [chunkOf "message_stop"])
          = [chunkOf "message_start"] ++
            ((runSSE oaiHandleEvent ⟨"", "stop"⟩ lines).2 ++ [chunkOf "message_stop"]) from rfl,
        textOfChunks_append, textOfChunks_append]
      simp [respText, oaiTransformResponse, concatTextParts, textOfChunks, hfc,
        String.empty_append, String.append_empty, chunkOf]
    · rfl
  · intro d req msg ds o st en wreq hw ho
    rw [anthSendStream_body d req wreq hw (anthStreamLines msg ds o) st en,
      anthRunSSE_streamLines msg ds o ho]

/-- **C3 counterexample.** Streaming `message_start` (carrying empty
content), one `text_delta "hi"`, then `message_stop` on the Anthropic
adapter yields the delta `"hi"` but a terminal `GatewayResponse` whose
content is empty — the adapter never accumulates the yielded deltas into
the final response, so the concatenated content text `""` differs from the
concatenated delta text `"hi"`. -/
theorem C3_counterexample :
    anthSendStream true anthropicDefaultModel
        (textOnlyReq "anthropic" "claude-sonnet-4-20250514" "Say hi") 200
        (some [SSELine.dataEvent (AnthEvent.messageStart
            ⟨"msg_1", [], "claude-sonnet-4-20250514", none, ⟨3, 0⟩⟩),
          SSELine.dataEvent (AnthEvent.textDelta "hi"),
          SSELine.dataEvent AnthEvent.messageStop]) 0 0
      = ([chunkOf "message_start", chunkTextDelta "hi", chunkMessageStop ⟨3, 0⟩],
         .ok ⟨"msg_1", "anthropic", "claude-sonnet-4-20250514", [], "end_turn", ⟨3, 0⟩,
           ⟨0, 0, 0⟩⟩)
    ∧ textOfChunks [chunkOf "message_start", chunkTextDelta "hi", chunkMessageStop ⟨3, 0⟩]
      = "hi"
    ∧ respText ⟨"msg_1", "anthropic", "claude-sonnet-4-20250514", [], "end_turn", ⟨3, 0⟩,
        ⟨0, 0, 0⟩⟩ = ""
    ∧ ("" : String) ≠ "hi" :=
  ⟨by rfl, by rfl, by rfl, by decide⟩

/-- **C3 witness**: the OpenAI reconstruction clause at a concrete
two-delta stream — the terminal response text equals the concatenated
yielded deltas. -/
theorem C3_stream_reconstruction_witness :
    respText ⟨"stream-7", "openai", "gpt-4o", [.text "Hello"], "end_turn", ⟨0, 0⟩, ⟨7, 9, 2⟩⟩
      = textOfChunks (oaiSendStream true openaiDefaultModel
          (textOnlyReq "openai" "gpt-4o" "hi") 200
          (some [SSELine.dataEvent ⟨some "He", none⟩,
                 SSELine.dataEvent ⟨some "llo", some "stop"⟩,
                 SSELine.dataDone]) 7 9).1 := by
  obtain ⟨r, h1, h2, h3⟩ := C3_stream_reconstruction.1 openaiDefaultModel
    (textOnlyReq "openai" "gpt-4o" "hi")
    [SSELine.dataEvent ⟨some "He", none⟩,
     SSELine.dataEvent ⟨some "llo", some "stop"⟩,
     SSELine.dataDone] 7 9 _ rfl
  have hcalc : (oaiSendStream true openaiDefaultModel
      (textOnlyReq "openai" "gpt-4o" "hi") 200
      (some [SSELine.dataEvent ⟨some "He", none⟩,
             SSELine.dataEvent ⟨some "llo", some "stop"⟩,
             SSELine.dataDone]) 7 9).2
      = .ok (⟨"stream-7", "openai", "gpt-4o", [.text "Hello"], "end_turn", ⟨0, 0⟩,
          ⟨7, 9, 2⟩⟩ : GatewayResponse) := by rfl
  have hr : r = ⟨"stream-7", "openai", "gpt-4o", [.text "Hello"], "end_turn", ⟨0, 0⟩,
      ⟨7, 9, 2⟩⟩ := Except.ok.inj (h1.symm.trans hcalc)
  rw [← hr]
  exact h2

/-- **C4 (amended).** Both adapters fail with `STREAM_ERROR` when the HTTP
response has no body.  The Anthropic adapter fails with `STREAM_ERROR`
when the stream ends without a `message_start` having been observed — but
a stream that delivered `message_start` and then ended before any terminal
`message_stop` still produces a normal terminal response (see the
counterexample).  The OpenAI adapter never signals `STREAM_ERROR` for
early termination: any present body yields a normal terminal response. -/
theorem C4_stream_errors :
    (∀ (d : String) (req : GatewayRequest) (wreq : AnthropicRequest) (st en : Nat),
        anthTransformRequest d { req with stream := some true } = .ok wreq →
        anthSendStream true d req 200 none st en
          = ([], .error (mkGatewayError "No response body for streaming" "STREAM_ERROR"
              (some "anthropic") none)))
    ∧ (∀ (d : String) (req : GatewayRequest) (wreq : OpenAIRequest) (st en : Nat),
        oaiTransformRequest d { req with stream := some true } = .ok wreq →
        oaiSendStream true d req 200 none st en
          = ([], .error (mkGatewayError "No response body for streaming" "STREAM_ERROR"
              (some "openai") none)))
    ∧ (∀ (d : String) (req : GatewayRequest) (wreq : AnthropicRequest) (st en : Nat)
        (lines : List (SSELine AnthEvent)),
        anthTransformRequest d { req with stream := some true } = .ok wreq →
        (∀ l ∈ lines, ∀ msg, l ≠ SSELine.dataEvent (AnthEvent.messageStart msg)) →
        anthSendStream true d req 200 (some lines) st en
          = ((runSSE anthHandleEvent anthInitState lines).2,
             .error (mkGatewayError "Stream ended without complete response" "STREAM_ERROR"
               (some "anthropic") none)))
    ∧ (∀ (d : String) (req : GatewayRequest) (wreq : OpenAIRequest) (st en : Nat)
        (lines : List (SSELine OAIStreamEvent)),
        oaiTransformRequest d { req with stream := some true } = .ok wreq →
        ∃ r, (oaiSendStream true d req 200 (some lines) st en).2 = .ok r) := by
  refine ⟨?_, ?_, ?_, ?_⟩
  · intro d req wreq st en hw
    exact anthSendStream_noBody d req wreq hw st en
  · intro d req wreq st en hw
    exact oaiSendStream_noBody d req wreq hw st en
  · intro d req wreq st en lines hw hns
    rw [anthSendStream_body d req wreq hw lines st en]
    have hnone := anthRunSSE_no_start lines hns anthInitState rfl
    rw [hnone]
  · intro d req wreq st en lines hw
    exact ⟨_, by rw [oaiSendStream_body d req wreq hw lines st en]⟩

/-- **C4 counterexample.** A body that ends with no terminal event: the
OpenAI adapter, given an empty byte stream (no `[DONE]`), returns a normal
synthesized terminal response instead of failing with `STREAM_ERROR`; the
Anthropic adapter, given `message_start` and nothing else (no
`message_stop`), also returns a normal terminal response. -/
theorem C4_counterexample :
    oaiSendStream true openaiDefaultModel (textOnlyReq "openai" "gpt-4o" "hello") 200
        (some []) 0 0
      = ([chunkOf "message_start", chunkOf "message_stop"],
         .ok ⟨"stream-0", "openai", "gpt-4o", [.text ""], "end_turn", ⟨0, 0⟩, ⟨0, 0, 0⟩⟩)
    ∧ anthSendStream true anthropicDefaultModel
        (textOnlyReq "anthropic" "claude-sonnet-4-20250514" "x") 200
        (some [SSELine.dataEvent (AnthEvent.messageStart
          ⟨"msg_1", [AnthBlock.text "partial"], "claude-sonnet-4-20250514", none, ⟨3, 0⟩⟩)]) 0 0
      = ([chunkOf "message_start"],
         .ok ⟨"msg_1", "anthropic", "claude-sonnet-4-20250514", [.text "partial"], "end_turn",
           ⟨3, 0⟩, ⟨0, 0, 0⟩⟩) :=
  ⟨by rfl, by rfl⟩

/-- **C4 witness**: the amended no-body clause at a concrete request — the
Anthropic adapter rejects a missing body with `STREAM_ERROR`. -/
theorem C4_stream_errors_witness :
    anthSendStream true anthropicDefaultModel
        (textOnlyReq "anthropic" "claude-sonnet-4-20250514" "x") 200 none 0 0
      = ([], .error (mkGatewayError "No response body for streaming" "STREAM_ERROR"
          (some "anthropic") none)) :=
  C4_stream_errors.1 anthropicDefaultModel
    (textOnlyReq "anthropic" "claude-sonnet-4-20250514" "x") _ 0 0 rfl

end VLMGateway
